import Mathlib

/-! # Token kinds of the JavaScript front end (`js/src/frontend/TokenKind.h`)

The header declares one annotated table, `FOR_EACH_TOKEN_KIND_WITH_RANGE`, and
expands it twice: into the enumerators of `enum TokenKind` and (through
`FOR_EACH_TOKEN_KIND`) into per-kind data such as the diagnostic descriptions.
The classification predicates `TokenKindIs*` are range tests on the
enumerators.

The embedding keeps the table as data, computes the enumerators from it by the
rules C++ uses for an unscoped enumeration, and defines the predicates on the
computed values.
-/

namespace js.frontend

/-- The C identifiers that the table and the enumeration paste after `TOK_`:
the token kind names, the token range names, and `LIMIT`. The order of the
constructors carries no meaning; positions are computed from the table. -/
inductive TokenName where
  | EOF | EOL | SEMI | COMMA | HOOK | COLON | INC | DEC | DOT | TRIPLEDOT | OPTCHAIN | LB | RB
  | LC | RC | LP | RP | NAME | NUMBER | STRING | TEMPLATE_HEAD | NO_SUBS_TEMPLATE | REGEXP
  | TRUE | RESERVED_WORD_LITERAL_FIRST | FALSE | NULL | RESERVED_WORD_LITERAL_LAST | THIS
  | KEYWORD_FIRST | FUNCTION | IF | ELSE | SWITCH | CASE | DEFAULT | WHILE | DO | FOR | BREAK
  | CONTINUE | VAR | CONST | WITH | RETURN | NEW | DELETE | TRY | CATCH | FINALLY | THROW
  | DEBUGGER | EXPORT | IMPORT | CLASS | EXTENDS | SUPER | KEYWORD_LAST | AS
  | CONTEXTUAL_KEYWORD_FIRST | ASYNC | AWAIT | EACH | FROM | GET | LET | OF | SET | STATIC
  | TARGET | YIELD | CONTEXTUAL_KEYWORD_LAST | ENUM | FUTURE_RESERVED_KEYWORD_FIRST
  | FUTURE_RESERVED_KEYWORD_LAST | IMPLEMENTS | STRICT_RESERVED_KEYWORD_FIRST | INTERFACE
  | PACKAGE | PRIVATE | PROTECTED | PUBLIC | STRICT_RESERVED_KEYWORD_LAST | COALESCE
  | BINOP_FIRST | OR | AND | BITOR | BITXOR | BITAND | STRICTEQ | EQUALITY_START | EQ | STRICTNE
  | NE | EQUALITY_LAST | LT | RELOP_START | LE | GT | GE | RELOP_LAST | INSTANCEOF
  | KEYWORD_BINOP_FIRST | IN | KEYWORD_BINOP_LAST | LSH | SHIFTOP_START | RSH | URSH
  | SHIFTOP_LAST | ADD | SUB | MUL | DIV | MOD | POW | BINOP_LAST | TYPEOF | KEYWORD_UNOP_FIRST
  | VOID | KEYWORD_UNOP_LAST | NOT | BITNOT | ARROW | ASSIGN | ASSIGNMENT_START | ADDASSIGN
  | SUBASSIGN | BITORASSIGN | BITXORASSIGN | BITANDASSIGN | LSHASSIGN | RSHASSIGN | URSHASSIGN
  | MULASSIGN | DIVASSIGN | MODASSIGN | POWASSIGN | ASSIGNMENT_LAST | LIMIT
  deriving Repr, DecidableEq

/-- One line of the table: `macro(<TOKEN_KIND_NAME>, <DESCRIPTION>)` is `kind`,
`range(<TOKEN_RANGE_NAME>, <TOKEN_KIND_NAME>)` is `range`. -/
inductive TableEntry where
  | kind (name : TokenName) (desc : String)
  | range (name : TokenName) (value : TokenName)
  deriving Repr, DecidableEq

/-- The table of `FOR_EACH_TOKEN_KIND_WITH_RANGE`, line by line. The C string
`"'\?\?'"` of `COALESCE` is written without the trigraph escapes, which C
drops; braces are written as character codes. -/
def FOR_EACH_TOKEN_KIND_WITH_RANGE : List TableEntry :=
  [
    TableEntry.kind TokenName.EOF "end of script",
    TableEntry.kind TokenName.EOL "line terminator",
    TableEntry.kind TokenName.SEMI "';'",
    TableEntry.kind TokenName.COMMA "','",
    TableEntry.kind TokenName.HOOK "'?'",
    TableEntry.kind TokenName.COLON "':'",
    TableEntry.kind TokenName.INC "'++'",
    TableEntry.kind TokenName.DEC "'--'",
    TableEntry.kind TokenName.DOT "'.'",
    TableEntry.kind TokenName.TRIPLEDOT "'...'",
    TableEntry.kind TokenName.OPTCHAIN "'?.'",
    TableEntry.kind TokenName.LB "'['",
    TableEntry.kind TokenName.RB "']'",
    TableEntry.kind TokenName.LC "'\x7b'",
    TableEntry.kind TokenName.RC "'\x7d'",
    TableEntry.kind TokenName.LP "'('",
    TableEntry.kind TokenName.RP "')'",
    TableEntry.kind TokenName.NAME "identifier",
    TableEntry.kind TokenName.NUMBER "numeric literal",
    TableEntry.kind TokenName.STRING "string literal",
    TableEntry.kind TokenName.TEMPLATE_HEAD "'$\x7b'",
    TableEntry.kind TokenName.NO_SUBS_TEMPLATE "template literal",
    TableEntry.kind TokenName.REGEXP "regular expression literal",
    TableEntry.kind TokenName.TRUE "boolean literal 'true'",
    TableEntry.range TokenName.RESERVED_WORD_LITERAL_FIRST TokenName.TRUE,
    TableEntry.kind TokenName.FALSE "boolean literal 'false'",
    TableEntry.kind TokenName.NULL "null literal",
    TableEntry.range TokenName.RESERVED_WORD_LITERAL_LAST TokenName.NULL,
    TableEntry.kind TokenName.THIS "keyword 'this'",
    TableEntry.range TokenName.KEYWORD_FIRST TokenName.THIS,
    TableEntry.kind TokenName.FUNCTION "keyword 'function'",
    TableEntry.kind TokenName.IF "keyword 'if'",
    TableEntry.kind TokenName.ELSE "keyword 'else'",
    TableEntry.kind TokenName.SWITCH "keyword 'switch'",
    TableEntry.kind TokenName.CASE "keyword 'case'",
    TableEntry.kind TokenName.DEFAULT "keyword 'default'",
    TableEntry.kind TokenName.WHILE "keyword 'while'",
    TableEntry.kind TokenName.DO "keyword 'do'",
    TableEntry.kind TokenName.FOR "keyword 'for'",
    TableEntry.kind TokenName.BREAK "keyword 'break'",
    TableEntry.kind TokenName.CONTINUE "keyword 'continue'",
    TableEntry.kind TokenName.VAR "keyword 'var'",
    TableEntry.kind TokenName.CONST "keyword 'const'",
    TableEntry.kind TokenName.WITH "keyword 'with'",
    TableEntry.kind TokenName.RETURN "keyword 'return'",
    TableEntry.kind TokenName.NEW "keyword 'new'",
    TableEntry.kind TokenName.DELETE "keyword 'delete'",
    TableEntry.kind TokenName.TRY "keyword 'try'",
    TableEntry.kind TokenName.CATCH "keyword 'catch'",
    TableEntry.kind TokenName.FINALLY "keyword 'finally'",
    TableEntry.kind TokenName.THROW "keyword 'throw'",
    TableEntry.kind TokenName.DEBUGGER "keyword 'debugger'",
    TableEntry.kind TokenName.EXPORT "keyword 'export'",
    TableEntry.kind TokenName.IMPORT "keyword 'import'",
    TableEntry.kind TokenName.CLASS "keyword 'class'",
    TableEntry.kind TokenName.EXTENDS "keyword 'extends'",
    TableEntry.kind TokenName.SUPER "keyword 'super'",
    TableEntry.range TokenName.KEYWORD_LAST TokenName.SUPER,
    TableEntry.kind TokenName.AS "'as'",
    TableEntry.range TokenName.CONTEXTUAL_KEYWORD_FIRST TokenName.AS,
    TableEntry.kind TokenName.ASYNC "'async'",
    TableEntry.kind TokenName.AWAIT "'await'",
    TableEntry.kind TokenName.EACH "'each'",
    TableEntry.kind TokenName.FROM "'from'",
    TableEntry.kind TokenName.GET "'get'",
    TableEntry.kind TokenName.LET "'let'",
    TableEntry.kind TokenName.OF "'of'",
    TableEntry.kind TokenName.SET "'set'",
    TableEntry.kind TokenName.STATIC "'static'",
    TableEntry.kind TokenName.TARGET "'target'",
    TableEntry.kind TokenName.YIELD "'yield'",
    TableEntry.range TokenName.CONTEXTUAL_KEYWORD_LAST TokenName.YIELD,
    TableEntry.kind TokenName.ENUM "reserved word 'enum'",
    TableEntry.range TokenName.FUTURE_RESERVED_KEYWORD_FIRST TokenName.ENUM,
    TableEntry.range TokenName.FUTURE_RESERVED_KEYWORD_LAST TokenName.ENUM,
    TableEntry.kind TokenName.IMPLEMENTS "reserved word 'implements'",
    TableEntry.range TokenName.STRICT_RESERVED_KEYWORD_FIRST TokenName.IMPLEMENTS,
    TableEntry.kind TokenName.INTERFACE "reserved word 'interface'",
    TableEntry.kind TokenName.PACKAGE "reserved word 'package'",
    TableEntry.kind TokenName.PRIVATE "reserved word 'private'",
    TableEntry.kind TokenName.PROTECTED "reserved word 'protected'",
    TableEntry.kind TokenName.PUBLIC "reserved word 'public'",
    TableEntry.range TokenName.STRICT_RESERVED_KEYWORD_LAST TokenName.PUBLIC,
    TableEntry.kind TokenName.COALESCE "'??'",
    TableEntry.range TokenName.BINOP_FIRST TokenName.COALESCE,
    TableEntry.kind TokenName.OR "'||'",
    TableEntry.kind TokenName.AND "'&&'",
    TableEntry.kind TokenName.BITOR "'|'",
    TableEntry.kind TokenName.BITXOR "'^'",
    TableEntry.kind TokenName.BITAND "'&'",
    TableEntry.kind TokenName.STRICTEQ "'==='",
    TableEntry.range TokenName.EQUALITY_START TokenName.STRICTEQ,
    TableEntry.kind TokenName.EQ "'=='",
    TableEntry.kind TokenName.STRICTNE "'!=='",
    TableEntry.kind TokenName.NE "'!='",
    TableEntry.range TokenName.EQUALITY_LAST TokenName.NE,
    TableEntry.kind TokenName.LT "'<'",
    TableEntry.range TokenName.RELOP_START TokenName.LT,
    TableEntry.kind TokenName.LE "'<='",
    TableEntry.kind TokenName.GT "'>'",
    TableEntry.kind TokenName.GE "'>='",
    TableEntry.range TokenName.RELOP_LAST TokenName.GE,
    TableEntry.kind TokenName.INSTANCEOF "keyword 'instanceof'",
    TableEntry.range TokenName.KEYWORD_BINOP_FIRST TokenName.INSTANCEOF,
    TableEntry.kind TokenName.IN "keyword 'in'",
    TableEntry.range TokenName.KEYWORD_BINOP_LAST TokenName.IN,
    TableEntry.kind TokenName.LSH "'<<'",
    TableEntry.range TokenName.SHIFTOP_START TokenName.LSH,
    TableEntry.kind TokenName.RSH "'>>'",
    TableEntry.kind TokenName.URSH "'>>>'",
    TableEntry.range TokenName.SHIFTOP_LAST TokenName.URSH,
    TableEntry.kind TokenName.ADD "'+'",
    TableEntry.kind TokenName.SUB "'-'",
    TableEntry.kind TokenName.MUL "'*'",
    TableEntry.kind TokenName.DIV "'/'",
    TableEntry.kind TokenName.MOD "'%'",
    TableEntry.kind TokenName.POW "'**'",
    TableEntry.range TokenName.BINOP_LAST TokenName.POW,
    TableEntry.kind TokenName.TYPEOF "keyword 'typeof'",
    TableEntry.range TokenName.KEYWORD_UNOP_FIRST TokenName.TYPEOF,
    TableEntry.kind TokenName.VOID "keyword 'void'",
    TableEntry.range TokenName.KEYWORD_UNOP_LAST TokenName.VOID,
    TableEntry.kind TokenName.NOT "'!'",
    TableEntry.kind TokenName.BITNOT "'~'",
    TableEntry.kind TokenName.ARROW "'=>'",
    TableEntry.kind TokenName.ASSIGN "'='",
    TableEntry.range TokenName.ASSIGNMENT_START TokenName.ASSIGN,
    TableEntry.kind TokenName.ADDASSIGN "'+='",
    TableEntry.kind TokenName.SUBASSIGN "'-='",
    TableEntry.kind TokenName.BITORASSIGN "'|='",
    TableEntry.kind TokenName.BITXORASSIGN "'^='",
    TableEntry.kind TokenName.BITANDASSIGN "'&='",
    TableEntry.kind TokenName.LSHASSIGN "'<<='",
    TableEntry.kind TokenName.RSHASSIGN "'>>='",
    TableEntry.kind TokenName.URSHASSIGN "'>>>='",
    TableEntry.kind TokenName.MULASSIGN "'*='",
    TableEntry.kind TokenName.DIVASSIGN "'/='",
    TableEntry.kind TokenName.MODASSIGN "'%='",
    TableEntry.kind TokenName.POWASSIGN "'**='",
    TableEntry.range TokenName.ASSIGNMENT_LAST TokenName.POWASSIGN
  ]

/-- The expansion of `FOR_EACH_TOKEN_KIND`: the range lines expand to nothing
(`TOKEN_KIND_RANGE_EMIT_NONE`), the kind lines are kept with name and
description. -/
def FOR_EACH_TOKEN_KIND : List (TokenName × String) :=
  FOR_EACH_TOKEN_KIND_WITH_RANGE.filterMap fun e =>
    match e with
    | TableEntry.kind name desc => some (name, desc)
    | TableEntry.range _ _ => none

/-- The range lines of the table alone, each with the range name and the kind
name it is bound to. -/
def rangeMarkers : List (TokenName × TokenName) :=
  FOR_EACH_TOKEN_KIND_WITH_RANGE.filterMap fun e =>
    match e with
    | TableEntry.kind _ _ => none
    | TableEntry.range name value => some (name, value)

/-- State of the compiler while it reads the enumerator list of an unscoped
enumeration: the value an enumerator without initializer receives next, and
the enumerators declared so far (most recent first). -/
structure EnumState where
  next : Nat
  enumerators : List (TokenName × Nat)
  deriving Repr, DecidableEq

/-- An enumerator without initializer, `NAME,`: it receives the next value.
Declaring a name twice is ill-formed. -/
def EnumState.declare (st : EnumState) (name : TokenName) : Option EnumState :=
  match st.enumerators.lookup name with
  | some _ => none
  | none => some { next := st.next + 1, enumerators := (name, st.next) :: st.enumerators }

/-- An enumerator with initializer, `NAME = VALUE,`: it receives the value of
the enumerator named in the initializer, which must have been declared before,
and counting continues from there. Declaring a name twice is ill-formed. -/
def EnumState.declareAs (st : EnumState) (name value : TokenName) : Option EnumState :=
  match st.enumerators.lookup name, st.enumerators.lookup value with
  | none, some v => some { next := v + 1, enumerators := (name, v) :: st.enumerators }
  | _, _ => none

/-- The line `#define EMIT_ENUM(name, desc) TOK_##name,`. -/
def EMIT_ENUM (st : EnumState) (name : TokenName) (_desc : String) : Option EnumState :=
  st.declare name

/-- The line `#define EMIT_ENUM_RANGE(name, value) TOK_##name = TOK_##value,`. -/
def EMIT_ENUM_RANGE (st : EnumState) (name value : TokenName) : Option EnumState :=
  st.declareAs name value

/-- The enumerator list `FOR_EACH_TOKEN_KIND_WITH_RANGE(EMIT_ENUM, EMIT_ENUM_RANGE)`
read from a given state. -/
def emitEnumerators : List TableEntry → EnumState → Option EnumState
  | [], st => some st
  | TableEntry.kind name desc :: rest, st =>
    match EMIT_ENUM st name desc with
    | some st1 => emitEnumerators rest st1
    | none => none
  | TableEntry.range name value :: rest, st =>
    match EMIT_ENUM_RANGE st name value with
    | some st1 => emitEnumerators rest st1
    | none => none

/-- The declaration `enum TokenKind`: the expansion of the table, then
`TOK_LIMIT`. The first enumerator receives zero. -/
def enumTokenKind : Option EnumState :=
  match emitEnumerators FOR_EACH_TOKEN_KIND_WITH_RANGE { next := 0, enumerators := [] } with
  | some st => st.declare TokenName.LIMIT
  | none => none

/-- Values of the type `enum TokenKind`. No enumerator is negative, and the
comparisons `<=` and `==` of the predicates act on the integer value. -/
abbrev TokenKind : Type := Nat

/-- Value of the enumerator `TOK_##name` of `enum TokenKind`, when it is
declared. -/
def enumerator? (name : TokenName) : Option TokenKind :=
  enumTokenKind.bind fun st => st.enumerators.lookup name

/-- The enumerator `TOK_##name`. Every name is declared by the enumeration, so
the default is never taken. -/
def TOK (name : TokenName) : TokenKind :=
  (enumerator? name).getD 0

def TOK_EOF : TokenKind := TOK TokenName.EOF
def TOK_EOL : TokenKind := TOK TokenName.EOL
def TOK_SEMI : TokenKind := TOK TokenName.SEMI
def TOK_COMMA : TokenKind := TOK TokenName.COMMA
def TOK_HOOK : TokenKind := TOK TokenName.HOOK
def TOK_COLON : TokenKind := TOK TokenName.COLON
def TOK_INC : TokenKind := TOK TokenName.INC
def TOK_DEC : TokenKind := TOK TokenName.DEC
def TOK_DOT : TokenKind := TOK TokenName.DOT
def TOK_TRIPLEDOT : TokenKind := TOK TokenName.TRIPLEDOT
def TOK_OPTCHAIN : TokenKind := TOK TokenName.OPTCHAIN
def TOK_LB : TokenKind := TOK TokenName.LB
def TOK_RB : TokenKind := TOK TokenName.RB
def TOK_LC : TokenKind := TOK TokenName.LC
def TOK_RC : TokenKind := TOK TokenName.RC
def TOK_LP : TokenKind := TOK TokenName.LP
def TOK_RP : TokenKind := TOK TokenName.RP
def TOK_NAME : TokenKind := TOK TokenName.NAME
def TOK_NUMBER : TokenKind := TOK TokenName.NUMBER
def TOK_STRING : TokenKind := TOK TokenName.STRING
def TOK_TEMPLATE_HEAD : TokenKind := TOK TokenName.TEMPLATE_HEAD
def TOK_NO_SUBS_TEMPLATE : TokenKind := TOK TokenName.NO_SUBS_TEMPLATE
def TOK_REGEXP : TokenKind := TOK TokenName.REGEXP
def TOK_TRUE : TokenKind := TOK TokenName.TRUE
def TOK_RESERVED_WORD_LITERAL_FIRST : TokenKind := TOK TokenName.RESERVED_WORD_LITERAL_FIRST
def TOK_FALSE : TokenKind := TOK TokenName.FALSE
def TOK_NULL : TokenKind := TOK TokenName.NULL
def TOK_RESERVED_WORD_LITERAL_LAST : TokenKind := TOK TokenName.RESERVED_WORD_LITERAL_LAST
def TOK_THIS : TokenKind := TOK TokenName.THIS
def TOK_KEYWORD_FIRST : TokenKind := TOK TokenName.KEYWORD_FIRST
def TOK_FUNCTION : TokenKind := TOK TokenName.FUNCTION
def TOK_IF : TokenKind := TOK TokenName.IF
def TOK_ELSE : TokenKind := TOK TokenName.ELSE
def TOK_SWITCH : TokenKind := TOK TokenName.SWITCH
def TOK_CASE : TokenKind := TOK TokenName.CASE
def TOK_DEFAULT : TokenKind := TOK TokenName.DEFAULT
def TOK_WHILE : TokenKind := TOK TokenName.WHILE
def TOK_DO : TokenKind := TOK TokenName.DO
def TOK_FOR : TokenKind := TOK TokenName.FOR
def TOK_BREAK : TokenKind := TOK TokenName.BREAK
def TOK_CONTINUE : TokenKind := TOK TokenName.CONTINUE
def TOK_VAR : TokenKind := TOK TokenName.VAR
def TOK_CONST : TokenKind := TOK TokenName.CONST
def TOK_WITH : TokenKind := TOK TokenName.WITH
def TOK_RETURN : TokenKind := TOK TokenName.RETURN
def TOK_NEW : TokenKind := TOK TokenName.NEW
def TOK_DELETE : TokenKind := TOK TokenName.DELETE
def TOK_TRY : TokenKind := TOK TokenName.TRY
def TOK_CATCH : TokenKind := TOK TokenName.CATCH
def TOK_FINALLY : TokenKind := TOK TokenName.FINALLY
def TOK_THROW : TokenKind := TOK TokenName.THROW
def TOK_DEBUGGER : TokenKind := TOK TokenName.DEBUGGER
def TOK_EXPORT : TokenKind := TOK TokenName.EXPORT
def TOK_IMPORT : TokenKind := TOK TokenName.IMPORT
def TOK_CLASS : TokenKind := TOK TokenName.CLASS
def TOK_EXTENDS : TokenKind := TOK TokenName.EXTENDS
def TOK_SUPER : TokenKind := TOK TokenName.SUPER
def TOK_KEYWORD_LAST : TokenKind := TOK TokenName.KEYWORD_LAST
def TOK_AS : TokenKind := TOK TokenName.AS
def TOK_CONTEXTUAL_KEYWORD_FIRST : TokenKind := TOK TokenName.CONTEXTUAL_KEYWORD_FIRST
def TOK_ASYNC : TokenKind := TOK TokenName.ASYNC
def TOK_AWAIT : TokenKind := TOK TokenName.AWAIT
def TOK_EACH : TokenKind := TOK TokenName.EACH
def TOK_FROM : TokenKind := TOK TokenName.FROM
def TOK_GET : TokenKind := TOK TokenName.GET
def TOK_LET : TokenKind := TOK TokenName.LET
def TOK_OF : TokenKind := TOK TokenName.OF
def TOK_SET : TokenKind := TOK TokenName.SET
def TOK_STATIC : TokenKind := TOK TokenName.STATIC
def TOK_TARGET : TokenKind := TOK TokenName.TARGET
def TOK_YIELD : TokenKind := TOK TokenName.YIELD
def TOK_CONTEXTUAL_KEYWORD_LAST : TokenKind := TOK TokenName.CONTEXTUAL_KEYWORD_LAST
def TOK_ENUM : TokenKind := TOK TokenName.ENUM
def TOK_FUTURE_RESERVED_KEYWORD_FIRST : TokenKind := TOK TokenName.FUTURE_RESERVED_KEYWORD_FIRST
def TOK_FUTURE_RESERVED_KEYWORD_LAST : TokenKind := TOK TokenName.FUTURE_RESERVED_KEYWORD_LAST
def TOK_IMPLEMENTS : TokenKind := TOK TokenName.IMPLEMENTS
def TOK_STRICT_RESERVED_KEYWORD_FIRST : TokenKind := TOK TokenName.STRICT_RESERVED_KEYWORD_FIRST
def TOK_INTERFACE : TokenKind := TOK TokenName.INTERFACE
def TOK_PACKAGE : TokenKind := TOK TokenName.PACKAGE
def TOK_PRIVATE : TokenKind := TOK TokenName.PRIVATE
def TOK_PROTECTED : TokenKind := TOK TokenName.PROTECTED
def TOK_PUBLIC : TokenKind := TOK TokenName.PUBLIC
def TOK_STRICT_RESERVED_KEYWORD_LAST : TokenKind := TOK TokenName.STRICT_RESERVED_KEYWORD_LAST
def TOK_COALESCE : TokenKind := TOK TokenName.COALESCE
def TOK_BINOP_FIRST : TokenKind := TOK TokenName.BINOP_FIRST
def TOK_OR : TokenKind := TOK TokenName.OR
def TOK_AND : TokenKind := TOK TokenName.AND
def TOK_BITOR : TokenKind := TOK TokenName.BITOR
def TOK_BITXOR : TokenKind := TOK TokenName.BITXOR
def TOK_BITAND : TokenKind := TOK TokenName.BITAND
def TOK_STRICTEQ : TokenKind := TOK TokenName.STRICTEQ
def TOK_EQUALITY_START : TokenKind := TOK TokenName.EQUALITY_START
def TOK_EQ : TokenKind := TOK TokenName.EQ
def TOK_STRICTNE : TokenKind := TOK TokenName.STRICTNE
def TOK_NE : TokenKind := TOK TokenName.NE
def TOK_EQUALITY_LAST : TokenKind := TOK TokenName.EQUALITY_LAST
def TOK_LT : TokenKind := TOK TokenName.LT
def TOK_RELOP_START : TokenKind := TOK TokenName.RELOP_START
def TOK_LE : TokenKind := TOK TokenName.LE
def TOK_GT : TokenKind := TOK TokenName.GT
def TOK_GE : TokenKind := TOK TokenName.GE
def TOK_RELOP_LAST : TokenKind := TOK TokenName.RELOP_LAST
def TOK_INSTANCEOF : TokenKind := TOK TokenName.INSTANCEOF
def TOK_KEYWORD_BINOP_FIRST : TokenKind := TOK TokenName.KEYWORD_BINOP_FIRST
def TOK_IN : TokenKind := TOK TokenName.IN
def TOK_KEYWORD_BINOP_LAST : TokenKind := TOK TokenName.KEYWORD_BINOP_LAST
def TOK_LSH : TokenKind := TOK TokenName.LSH
def TOK_SHIFTOP_START : TokenKind := TOK TokenName.SHIFTOP_START
def TOK_RSH : TokenKind := TOK TokenName.RSH
def TOK_URSH : TokenKind := TOK TokenName.URSH
def TOK_SHIFTOP_LAST : TokenKind := TOK TokenName.SHIFTOP_LAST
def TOK_ADD : TokenKind := TOK TokenName.ADD
def TOK_SUB : TokenKind := TOK TokenName.SUB
def TOK_MUL : TokenKind := TOK TokenName.MUL
def TOK_DIV : TokenKind := TOK TokenName.DIV
def TOK_MOD : TokenKind := TOK TokenName.MOD
def TOK_POW : TokenKind := TOK TokenName.POW
def TOK_BINOP_LAST : TokenKind := TOK TokenName.BINOP_LAST
def TOK_TYPEOF : TokenKind := TOK TokenName.TYPEOF
def TOK_KEYWORD_UNOP_FIRST : TokenKind := TOK TokenName.KEYWORD_UNOP_FIRST
def TOK_VOID : TokenKind := TOK TokenName.VOID
def TOK_KEYWORD_UNOP_LAST : TokenKind := TOK TokenName.KEYWORD_UNOP_LAST
def TOK_NOT : TokenKind := TOK TokenName.NOT
def TOK_BITNOT : TokenKind := TOK TokenName.BITNOT
def TOK_ARROW : TokenKind := TOK TokenName.ARROW
def TOK_ASSIGN : TokenKind := TOK TokenName.ASSIGN
def TOK_ASSIGNMENT_START : TokenKind := TOK TokenName.ASSIGNMENT_START
def TOK_ADDASSIGN : TokenKind := TOK TokenName.ADDASSIGN
def TOK_SUBASSIGN : TokenKind := TOK TokenName.SUBASSIGN
def TOK_BITORASSIGN : TokenKind := TOK TokenName.BITORASSIGN
def TOK_BITXORASSIGN : TokenKind := TOK TokenName.BITXORASSIGN
def TOK_BITANDASSIGN : TokenKind := TOK TokenName.BITANDASSIGN
def TOK_LSHASSIGN : TokenKind := TOK TokenName.LSHASSIGN
def TOK_RSHASSIGN : TokenKind := TOK TokenName.RSHASSIGN
def TOK_URSHASSIGN : TokenKind := TOK TokenName.URSHASSIGN
def TOK_MULASSIGN : TokenKind := TOK TokenName.MULASSIGN
def TOK_DIVASSIGN : TokenKind := TOK TokenName.DIVASSIGN
def TOK_MODASSIGN : TokenKind := TOK TokenName.MODASSIGN
def TOK_POWASSIGN : TokenKind := TOK TokenName.POWASSIGN
def TOK_ASSIGNMENT_LAST : TokenKind := TOK TokenName.ASSIGNMENT_LAST

/-- The enumerator `TOK_LIMIT`, the domain size. -/
def TOK_LIMIT : TokenKind := TOK TokenName.LIMIT

/-! ### The classification predicates -/

/-- Range test `TOK_BINOP_FIRST <= tt && tt <= TOK_BINOP_LAST`. -/
def TokenKindIsBinaryOp (tt : TokenKind) : Bool :=
  TOK_BINOP_FIRST ≤ tt && tt ≤ TOK_BINOP_LAST

/-- Range test `TOK_EQUALITY_START <= tt && tt <= TOK_EQUALITY_LAST`. -/
def TokenKindIsEquality (tt : TokenKind) : Bool :=
  TOK_EQUALITY_START ≤ tt && tt ≤ TOK_EQUALITY_LAST

/-- Range test `TOK_RELOP_START <= tt && tt <= TOK_RELOP_LAST`. -/
def TokenKindIsRelational (tt : TokenKind) : Bool :=
  TOK_RELOP_START ≤ tt && tt ≤ TOK_RELOP_LAST

/-- Range test `TOK_SHIFTOP_START <= tt && tt <= TOK_SHIFTOP_LAST`. -/
def TokenKindIsShift (tt : TokenKind) : Bool :=
  TOK_SHIFTOP_START ≤ tt && tt ≤ TOK_SHIFTOP_LAST

/-- Range test `TOK_ASSIGNMENT_START <= tt && tt <= TOK_ASSIGNMENT_LAST`. -/
def TokenKindIsAssignment (tt : TokenKind) : Bool :=
  TOK_ASSIGNMENT_START ≤ tt && tt ≤ TOK_ASSIGNMENT_LAST

/-- Union of the three keyword ranges: `KEYWORD`, `KEYWORD_BINOP` and
`KEYWORD_UNOP`. -/
def TokenKindIsKeyword (tt : TokenKind) : Bool :=
  (TOK_KEYWORD_FIRST ≤ tt && tt ≤ TOK_KEYWORD_LAST) ||
  (TOK_KEYWORD_BINOP_FIRST ≤ tt && tt ≤ TOK_KEYWORD_BINOP_LAST) ||
  (TOK_KEYWORD_UNOP_FIRST ≤ tt && tt ≤ TOK_KEYWORD_UNOP_LAST)

/-- Range test on `TOK_CONTEXTUAL_KEYWORD_FIRST .. TOK_CONTEXTUAL_KEYWORD_LAST`. -/
def TokenKindIsContextualKeyword (tt : TokenKind) : Bool :=
  TOK_CONTEXTUAL_KEYWORD_FIRST ≤ tt && tt ≤ TOK_CONTEXTUAL_KEYWORD_LAST

/-- Range test on `TOK_FUTURE_RESERVED_KEYWORD_FIRST ..
TOK_FUTURE_RESERVED_KEYWORD_LAST`. -/
def TokenKindIsFutureReservedWord (tt : TokenKind) : Bool :=
  TOK_FUTURE_RESERVED_KEYWORD_FIRST ≤ tt && tt ≤ TOK_FUTURE_RESERVED_KEYWORD_LAST

/-- Range test on `TOK_STRICT_RESERVED_KEYWORD_FIRST ..
TOK_STRICT_RESERVED_KEYWORD_LAST`. -/
def TokenKindIsStrictReservedWord (tt : TokenKind) : Bool :=
  TOK_STRICT_RESERVED_KEYWORD_FIRST ≤ tt && tt ≤ TOK_STRICT_RESERVED_KEYWORD_LAST

/-- Range test on `TOK_RESERVED_WORD_LITERAL_FIRST ..
TOK_RESERVED_WORD_LITERAL_LAST`. -/
def TokenKindIsReservedWordLiteral (tt : TokenKind) : Bool :=
  TOK_RESERVED_WORD_LITERAL_FIRST ≤ tt && tt ≤ TOK_RESERVED_WORD_LITERAL_LAST

/-- Keyword, future reserved word or reserved word literal. -/
def TokenKindIsReservedWord (tt : TokenKind) : Bool :=
  TokenKindIsKeyword tt ||
  TokenKindIsFutureReservedWord tt ||
  TokenKindIsReservedWordLiteral tt

/-- The kind `TOK_NAME`, a contextual keyword or a strict-mode reserved word. -/
def TokenKindIsPossibleIdentifier (tt : TokenKind) : Bool :=
  tt == TOK_NAME ||
  TokenKindIsContextualKeyword tt ||
  TokenKindIsStrictReservedWord tt

/-- Possible identifier or reserved word. -/
def TokenKindIsPossibleIdentifierName (tt : TokenKind) : Bool :=
  TokenKindIsPossibleIdentifier tt ||
  TokenKindIsReservedWord tt

/-! ### Descriptions -/

/-- Modelled from the spec: the cases of `description(kind)`, one per kind of
the table with the enumerator value as key, as `FOR_EACH_TOKEN_KIND` expands
with `case TOK_##name: return desc;` for its argument. -/
def descriptionCases : List (TokenKind × String) :=
  FOR_EACH_TOKEN_KIND.map fun e => (TOK e.1, e.2)

/-- Modelled from the spec: `description(kind)`, the function that returns the
fixed diagnostic string declared for a kind. The table it reads is in the
header; the function itself is defined in a file that is not among the
sources. It is total over the declared kinds; the domain-size sentinel and the
values beyond it have no description. -/
def description (kind : TokenKind) : Option String :=
  descriptionCases.lookup kind

/-- The enumerators of `enum TokenKind` with their values written out, most
recent first; `enumTokenKind_eq` proves that this is what the declaration
evaluates to. -/
def enumeratorValues : List (TokenName × Nat) :=
  [
    (TokenName.LIMIT, 116),
    (TokenName.ASSIGNMENT_LAST, 115),
    (TokenName.POWASSIGN, 115),
    (TokenName.MODASSIGN, 114),
    (TokenName.DIVASSIGN, 113),
    (TokenName.MULASSIGN, 112),
    (TokenName.URSHASSIGN, 111),
    (TokenName.RSHASSIGN, 110),
    (TokenName.LSHASSIGN, 109),
    (TokenName.BITANDASSIGN, 108),
    (TokenName.BITXORASSIGN, 107),
    (TokenName.BITORASSIGN, 106),
    (TokenName.SUBASSIGN, 105),
    (TokenName.ADDASSIGN, 104),
    (TokenName.ASSIGNMENT_START, 103),
    (TokenName.ASSIGN, 103),
    (TokenName.ARROW, 102),
    (TokenName.BITNOT, 101),
    (TokenName.NOT, 100),
    (TokenName.KEYWORD_UNOP_LAST, 99),
    (TokenName.VOID, 99),
    (TokenName.KEYWORD_UNOP_FIRST, 98),
    (TokenName.TYPEOF, 98),
    (TokenName.BINOP_LAST, 97),
    (TokenName.POW, 97),
    (TokenName.MOD, 96),
    (TokenName.DIV, 95),
    (TokenName.MUL, 94),
    (TokenName.SUB, 93),
    (TokenName.ADD, 92),
    (TokenName.SHIFTOP_LAST, 91),
    (TokenName.URSH, 91),
    (TokenName.RSH, 90),
    (TokenName.SHIFTOP_START, 89),
    (TokenName.LSH, 89),
    (TokenName.KEYWORD_BINOP_LAST, 88),
    (TokenName.IN, 88),
    (TokenName.KEYWORD_BINOP_FIRST, 87),
    (TokenName.INSTANCEOF, 87),
    (TokenName.RELOP_LAST, 86),
    (TokenName.GE, 86),
    (TokenName.GT, 85),
    (TokenName.LE, 84),
    (TokenName.RELOP_START, 83),
    (TokenName.LT, 83),
    (TokenName.EQUALITY_LAST, 82),
    (TokenName.NE, 82),
    (TokenName.STRICTNE, 81),
    (TokenName.EQ, 80),
    (TokenName.EQUALITY_START, 79),
    (TokenName.STRICTEQ, 79),
    (TokenName.BITAND, 78),
    (TokenName.BITXOR, 77),
    (TokenName.BITOR, 76),
    (TokenName.AND, 75),
    (TokenName.OR, 74),
    (TokenName.BINOP_FIRST, 73),
    (TokenName.COALESCE, 73),
    (TokenName.STRICT_RESERVED_KEYWORD_LAST, 72),
    (TokenName.PUBLIC, 72),
    (TokenName.PROTECTED, 71),
    (TokenName.PRIVATE, 70),
    (TokenName.PACKAGE, 69),
    (TokenName.INTERFACE, 68),
    (TokenName.STRICT_RESERVED_KEYWORD_FIRST, 67),
    (TokenName.IMPLEMENTS, 67),
    (TokenName.FUTURE_RESERVED_KEYWORD_LAST, 66),
    (TokenName.FUTURE_RESERVED_KEYWORD_FIRST, 66),
    (TokenName.ENUM, 66),
    (TokenName.CONTEXTUAL_KEYWORD_LAST, 65),
    (TokenName.YIELD, 65),
    (TokenName.TARGET, 64),
    (TokenName.STATIC, 63),
    (TokenName.SET, 62),
    (TokenName.OF, 61),
    (TokenName.LET, 60),
    (TokenName.GET, 59),
    (TokenName.FROM, 58),
    (TokenName.EACH, 57),
    (TokenName.AWAIT, 56),
    (TokenName.ASYNC, 55),
    (TokenName.CONTEXTUAL_KEYWORD_FIRST, 54),
    (TokenName.AS, 54),
    (TokenName.KEYWORD_LAST, 53),
    (TokenName.SUPER, 53),
    (TokenName.EXTENDS, 52),
    (TokenName.CLASS, 51),
    (TokenName.IMPORT, 50),
    (TokenName.EXPORT, 49),
    (TokenName.DEBUGGER, 48),
    (TokenName.THROW, 47),
    (TokenName.FINALLY, 46),
    (TokenName.CATCH, 45),
    (TokenName.TRY, 44),
    (TokenName.DELETE, 43),
    (TokenName.NEW, 42),
    (TokenName.RETURN, 41),
    (TokenName.WITH, 40),
    (TokenName.CONST, 39),
    (TokenName.VAR, 38),
    (TokenName.CONTINUE, 37),
    (TokenName.BREAK, 36),
    (TokenName.FOR, 35),
    (TokenName.DO, 34),
    (TokenName.WHILE, 33),
    (TokenName.DEFAULT, 32),
    (TokenName.CASE, 31),
    (TokenName.SWITCH, 30),
    (TokenName.ELSE, 29),
    (TokenName.IF, 28),
    (TokenName.FUNCTION, 27),
    (TokenName.KEYWORD_FIRST, 26),
    (TokenName.THIS, 26),
    (TokenName.RESERVED_WORD_LITERAL_LAST, 25),
    (TokenName.NULL, 25),
    (TokenName.FALSE, 24),
    (TokenName.RESERVED_WORD_LITERAL_FIRST, 23),
    (TokenName.TRUE, 23),
    (TokenName.REGEXP, 22),
    (TokenName.NO_SUBS_TEMPLATE, 21),
    (TokenName.TEMPLATE_HEAD, 20),
    (TokenName.STRING, 19),
    (TokenName.NUMBER, 18),
    (TokenName.NAME, 17),
    (TokenName.RP, 16),
    (TokenName.LP, 15),
    (TokenName.RC, 14),
    (TokenName.LC, 13),
    (TokenName.RB, 12),
    (TokenName.LB, 11),
    (TokenName.OPTCHAIN, 10),
    (TokenName.TRIPLEDOT, 9),
    (TokenName.DOT, 8),
    (TokenName.DEC, 7),
    (TokenName.INC, 6),
    (TokenName.COLON, 5),
    (TokenName.HOOK, 4),
    (TokenName.COMMA, 3),
    (TokenName.SEMI, 2),
    (TokenName.EOL, 1),
    (TokenName.EOF, 0)
  ]

/-! ### The enumeration evaluated -/

set_option maxHeartbeats 4000000 in
theorem enumTokenKind_eq :
    enumTokenKind = some { next := 117, enumerators := enumeratorValues } := by
  decide!

theorem enumerator?_eq_lookup (name : TokenName) :
    enumerator? name = enumeratorValues.lookup name := by
  unfold enumerator?
  rw [enumTokenKind_eq]
  rfl

theorem TOK_def (name : TokenName) : TOK name = (enumerator? name).getD 0 := rfl

theorem TOK_eq_of_lookup {name : TokenName} {n : Nat}
    (h : enumeratorValues.lookup name = some n) : TOK name = n := by
  rw [TOK_def, enumerator?_eq_lookup, h]
  rfl

@[simp] theorem TOK_EOF_eq : TOK_EOF = 0 := TOK_eq_of_lookup (by decide!)
@[simp] theorem TOK_EOL_eq : TOK_EOL = 1 := TOK_eq_of_lookup (by decide!)
@[simp] theorem TOK_SEMI_eq : TOK_SEMI = 2 := TOK_eq_of_lookup (by decide!)
@[simp] theorem TOK_COMMA_eq : TOK_COMMA = 3 := TOK_eq_of_lookup (by decide!)
@[simp] theorem TOK_HOOK_eq : TOK_HOOK = 4 := TOK_eq_of_lookup (by decide!)
@[simp] theorem TOK_COLON_eq : TOK_COLON = 5 := TOK_eq_of_lookup (by decide!)
@[simp] theorem TOK_INC_eq : TOK_INC = 6 := TOK_eq_of_lookup (by decide!)
@[simp] theorem TOK_DEC_eq : TOK_DEC = 7 := TOK_eq_of_lookup (by decide!)
@[simp] theorem TOK_DOT_eq : TOK_DOT = 8 := TOK_eq_of_lookup (by decide!)
@[simp] theorem TOK_TRIPLEDOT_eq : TOK_TRIPLEDOT = 9 := TOK_eq_of_lookup (by decide!)
@[simp] theorem TOK_OPTCHAIN_eq : TOK_OPTCHAIN = 10 := TOK_eq_of_lookup (by decide!)
@[simp] theorem TOK_LB_eq : TOK_LB = 11 := TOK_eq_of_lookup (by decide!)
@[simp] theorem TOK_RB_eq : TOK_RB = 12 := TOK_eq_of_lookup (by decide!)
@[simp] theorem TOK_LC_eq : TOK_LC = 13 := TOK_eq_of_lookup (by decide!)
@[simp] theorem TOK_RC_eq : TOK_RC = 14 := TOK_eq_of_lookup (by decide!)
@[simp] theorem TOK_LP_eq : TOK_LP = 15 := TOK_eq_of_lookup (by decide!)
@[simp] theorem TOK_RP_eq : TOK_RP = 16 := TOK_eq_of_lookup (by decide!)
@[simp] theorem TOK_NAME_eq : TOK_NAME = 17 := TOK_eq_of_lookup (by decide!)
@[simp] theorem TOK_NUMBER_eq : TOK_NUMBER = 18 := TOK_eq_of_lookup (by decide!)
@[simp] theorem TOK_STRING_eq : TOK_STRING = 19 := TOK_eq_of_lookup (by decide!)
@[simp] theorem TOK_TEMPLATE_HEAD_eq : TOK_TEMPLATE_HEAD = 20 := TOK_eq_of_lookup (by decide!)
@[simp] theorem TOK_NO_SUBS_TEMPLATE_eq : TOK_NO_SUBS_TEMPLATE = 21 := TOK_eq_of_lookup (by decide!)
@[simp] theorem TOK_REGEXP_eq : TOK_REGEXP = 22 := TOK_eq_of_lookup (by decide!)
@[simp] theorem TOK_TRUE_eq : TOK_TRUE = 23 := TOK_eq_of_lookup (by decide!)
@[simp] theorem TOK_RESERVED_WORD_LITERAL_FIRST_eq : TOK_RESERVED_WORD_LITERAL_FIRST = 23 := TOK_eq_of_lookup (by decide!)
@[simp] theorem TOK_FALSE_eq : TOK_FALSE = 24 := TOK_eq_of_lookup (by decide!)
@[simp] theorem TOK_NULL_eq : TOK_NULL = 25 := TOK_eq_of_lookup (by decide!)
@[simp] theorem TOK_RESERVED_WORD_LITERAL_LAST_eq : TOK_RESERVED_WORD_LITERAL_LAST = 25 := TOK_eq_of_lookup (by decide!)
@[simp] theorem TOK_THIS_eq : TOK_THIS = 26 := TOK_eq_of_lookup (by decide!)
@[simp] theorem TOK_KEYWORD_FIRST_eq : TOK_KEYWORD_FIRST = 26 := TOK_eq_of_lookup (by decide!)
@[simp] theorem TOK_FUNCTION_eq : TOK_FUNCTION = 27 := TOK_eq_of_lookup (by decide!)
@[simp] theorem TOK_IF_eq : TOK_IF = 28 := TOK_eq_of_lookup (by decide!)
@[simp] theorem TOK_ELSE_eq : TOK_ELSE = 29 := TOK_eq_of_lookup (by decide!)
@[simp] theorem TOK_SWITCH_eq : TOK_SWITCH = 30 := TOK_eq_of_lookup (by decide!)
@[simp] theorem TOK_CASE_eq : TOK_CASE = 31 := TOK_eq_of_lookup (by decide!)
@[simp] theorem TOK_DEFAULT_eq : TOK_DEFAULT = 32 := TOK_eq_of_lookup (by decide!)
@[simp] theorem TOK_WHILE_eq : TOK_WHILE = 33 := TOK_eq_of_lookup (by decide!)
@[simp] theorem TOK_DO_eq : TOK_DO = 34 := TOK_eq_of_lookup (by decide!)
@[simp] theorem TOK_FOR_eq : TOK_FOR = 35 := TOK_eq_of_lookup (by decide!)
@[simp] theorem TOK_BREAK_eq : TOK_BREAK = 36 := TOK_eq_of_lookup (by decide!)
@[simp] theorem TOK_CONTINUE_eq : TOK_CONTINUE = 37 := TOK_eq_of_lookup (by decide!)
@[simp] theorem TOK_VAR_eq : TOK_VAR = 38 := TOK_eq_of_lookup (by decide!)
@[simp] theorem TOK_CONST_eq : TOK_CONST = 39 := TOK_eq_of_lookup (by decide!)
@[simp] theorem TOK_WITH_eq : TOK_WITH = 40 := TOK_eq_of_lookup (by decide!)
@[simp] theorem TOK_RETURN_eq : TOK_RETURN = 41 := TOK_eq_of_lookup (by decide!)
@[simp] theorem TOK_NEW_eq : TOK_NEW = 42 := TOK_eq_of_lookup (by decide!)
@[simp] theorem TOK_DELETE_eq : TOK_DELETE = 43 := TOK_eq_of_lookup (by decide!)
@[simp] theorem TOK_TRY_eq : TOK_TRY = 44 := TOK_eq_of_lookup (by decide!)
@[simp] theorem TOK_CATCH_eq : TOK_CATCH = 45 := TOK_eq_of_lookup (by decide!)
@[simp] theorem TOK_FINALLY_eq : TOK_FINALLY = 46 := TOK_eq_of_lookup (by decide!)
@[simp] theorem TOK_THROW_eq : TOK_THROW = 47 := TOK_eq_of_lookup (by decide!)
@[simp] theorem TOK_DEBUGGER_eq : TOK_DEBUGGER = 48 := TOK_eq_of_lookup (by decide!)
@[simp] theorem TOK_EXPORT_eq : TOK_EXPORT = 49 := TOK_eq_of_lookup (by decide!)
@[simp] theorem TOK_IMPORT_eq : TOK_IMPORT = 50 := TOK_eq_of_lookup (by decide!)
@[simp] theorem TOK_CLASS_eq : TOK_CLASS = 51 := TOK_eq_of_lookup (by decide!)
@[simp] theorem TOK_EXTENDS_eq : TOK_EXTENDS = 52 := TOK_eq_of_lookup (by decide!)
@[simp] theorem TOK_SUPER_eq : TOK_SUPER = 53 := TOK_eq_of_lookup (by decide!)
@[simp] theorem TOK_KEYWORD_LAST_eq : TOK_KEYWORD_LAST = 53 := TOK_eq_of_lookup (by decide!)
@[simp] theorem TOK_AS_eq : TOK_AS = 54 := TOK_eq_of_lookup (by decide!)
@[simp] theorem TOK_CONTEXTUAL_KEYWORD_FIRST_eq : TOK_CONTEXTUAL_KEYWORD_FIRST = 54 := TOK_eq_of_lookup (by decide!)
@[simp] theorem TOK_ASYNC_eq : TOK_ASYNC = 55 := TOK_eq_of_lookup (by decide!)
@[simp] theorem TOK_AWAIT_eq : TOK_AWAIT = 56 := TOK_eq_of_lookup (by decide!)
@[simp] theorem TOK_EACH_eq : TOK_EACH = 57 := TOK_eq_of_lookup (by decide!)
@[simp] theorem TOK_FROM_eq : TOK_FROM = 58 := TOK_eq_of_lookup (by decide!)
@[simp] theorem TOK_GET_eq : TOK_GET = 59 := TOK_eq_of_lookup (by decide!)
@[simp] theorem TOK_LET_eq : TOK_LET = 60 := TOK_eq_of_lookup (by decide!)
@[simp] theorem TOK_OF_eq : TOK_OF = 61 := TOK_eq_of_lookup (by decide!)
@[simp] theorem TOK_SET_eq : TOK_SET = 62 := TOK_eq_of_lookup (by decide!)
@[simp] theorem TOK_STATIC_eq : TOK_STATIC = 63 := TOK_eq_of_lookup (by decide!)
@[simp] theorem TOK_TARGET_eq : TOK_TARGET = 64 := TOK_eq_of_lookup (by decide!)
@[simp] theorem TOK_YIELD_eq : TOK_YIELD = 65 := TOK_eq_of_lookup (by decide!)
@[simp] theorem TOK_CONTEXTUAL_KEYWORD_LAST_eq : TOK_CONTEXTUAL_KEYWORD_LAST = 65 := TOK_eq_of_lookup (by decide!)
@[simp] theorem TOK_ENUM_eq : TOK_ENUM = 66 := TOK_eq_of_lookup (by decide!)
@[simp] theorem TOK_FUTURE_RESERVED_KEYWORD_FIRST_eq : TOK_FUTURE_RESERVED_KEYWORD_FIRST = 66 := TOK_eq_of_lookup (by decide!)
@[simp] theorem TOK_FUTURE_RESERVED_KEYWORD_LAST_eq : TOK_FUTURE_RESERVED_KEYWORD_LAST = 66 := TOK_eq_of_lookup (by decide!)
@[simp] theorem TOK_IMPLEMENTS_eq : TOK_IMPLEMENTS = 67 := TOK_eq_of_lookup (by decide!)
@[simp] theorem TOK_STRICT_RESERVED_KEYWORD_FIRST_eq : TOK_STRICT_RESERVED_KEYWORD_FIRST = 67 := TOK_eq_of_lookup (by decide!)
@[simp] theorem TOK_INTERFACE_eq : TOK_INTERFACE = 68 := TOK_eq_of_lookup (by decide!)
@[simp] theorem TOK_PACKAGE_eq : TOK_PACKAGE = 69 := TOK_eq_of_lookup (by decide!)
@[simp] theorem TOK_PRIVATE_eq : TOK_PRIVATE = 70 := TOK_eq_of_lookup (by decide!)
@[simp] theorem TOK_PROTECTED_eq : TOK_PROTECTED = 71 := TOK_eq_of_lookup (by decide!)
@[simp] theorem TOK_PUBLIC_eq : TOK_PUBLIC = 72 := TOK_eq_of_lookup (by decide!)
@[simp] theorem TOK_STRICT_RESERVED_KEYWORD_LAST_eq : TOK_STRICT_RESERVED_KEYWORD_LAST = 72 := TOK_eq_of_lookup (by decide!)
@[simp] theorem TOK_COALESCE_eq : TOK_COALESCE = 73 := TOK_eq_of_lookup (by decide!)
@[simp] theorem TOK_BINOP_FIRST_eq : TOK_BINOP_FIRST = 73 := TOK_eq_of_lookup (by decide!)
@[simp] theorem TOK_OR_eq : TOK_OR = 74 := TOK_eq_of_lookup (by decide!)
@[simp] theorem TOK_AND_eq : TOK_AND = 75 := TOK_eq_of_lookup (by decide!)
@[simp] theorem TOK_BITOR_eq : TOK_BITOR = 76 := TOK_eq_of_lookup (by decide!)
@[simp] theorem TOK_BITXOR_eq : TOK_BITXOR = 77 := TOK_eq_of_lookup (by decide!)
@[simp] theorem TOK_BITAND_eq : TOK_BITAND = 78 := TOK_eq_of_lookup (by decide!)
@[simp] theorem TOK_STRICTEQ_eq : TOK_STRICTEQ = 79 := TOK_eq_of_lookup (by decide!)
@[simp] theorem TOK_EQUALITY_START_eq : TOK_EQUALITY_START = 79 := TOK_eq_of_lookup (by decide!)
@[simp] theorem TOK_EQ_eq : TOK_EQ = 80 := TOK_eq_of_lookup (by decide!)
@[simp] theorem TOK_STRICTNE_eq : TOK_STRICTNE = 81 := TOK_eq_of_lookup (by decide!)
@[simp] theorem TOK_NE_eq : TOK_NE = 82 := TOK_eq_of_lookup (by decide!)
@[simp] theorem TOK_EQUALITY_LAST_eq : TOK_EQUALITY_LAST = 82 := TOK_eq_of_lookup (by decide!)
@[simp] theorem TOK_LT_eq : TOK_LT = 83 := TOK_eq_of_lookup (by decide!)
@[simp] theorem TOK_RELOP_START_eq : TOK_RELOP_START = 83 := TOK_eq_of_lookup (by decide!)
@[simp] theorem TOK_LE_eq : TOK_LE = 84 := TOK_eq_of_lookup (by decide!)
@[simp] theorem TOK_GT_eq : TOK_GT = 85 := TOK_eq_of_lookup (by decide!)
@[simp] theorem TOK_GE_eq : TOK_GE = 86 := TOK_eq_of_lookup (by decide!)
@[simp] theorem TOK_RELOP_LAST_eq : TOK_RELOP_LAST = 86 := TOK_eq_of_lookup (by decide!)
@[simp] theorem TOK_INSTANCEOF_eq : TOK_INSTANCEOF = 87 := TOK_eq_of_lookup (by decide!)
@[simp] theorem TOK_KEYWORD_BINOP_FIRST_eq : TOK_KEYWORD_BINOP_FIRST = 87 := TOK_eq_of_lookup (by decide!)
@[simp] theorem TOK_IN_eq : TOK_IN = 88 := TOK_eq_of_lookup (by decide!)
@[simp] theorem TOK_KEYWORD_BINOP_LAST_eq : TOK_KEYWORD_BINOP_LAST = 88 := TOK_eq_of_lookup (by decide!)
@[simp] theorem TOK_LSH_eq : TOK_LSH = 89 := TOK_eq_of_lookup (by decide!)
@[simp] theorem TOK_SHIFTOP_START_eq : TOK_SHIFTOP_START = 89 := TOK_eq_of_lookup (by decide!)
@[simp] theorem TOK_RSH_eq : TOK_RSH = 90 := TOK_eq_of_lookup (by decide!)
@[simp] theorem TOK_URSH_eq : TOK_URSH = 91 := TOK_eq_of_lookup (by decide!)
@[simp] theorem TOK_SHIFTOP_LAST_eq : TOK_SHIFTOP_LAST = 91 := TOK_eq_of_lookup (by decide!)
@[simp] theorem TOK_ADD_eq : TOK_ADD = 92 := TOK_eq_of_lookup (by decide!)
@[simp] theorem TOK_SUB_eq : TOK_SUB = 93 := TOK_eq_of_lookup (by decide!)
@[simp] theorem TOK_MUL_eq : TOK_MUL = 94 := TOK_eq_of_lookup (by decide!)
@[simp] theorem TOK_DIV_eq : TOK_DIV = 95 := TOK_eq_of_lookup (by decide!)
@[simp] theorem TOK_MOD_eq : TOK_MOD = 96 := TOK_eq_of_lookup (by decide!)
@[simp] theorem TOK_POW_eq : TOK_POW = 97 := TOK_eq_of_lookup (by decide!)
@[simp] theorem TOK_BINOP_LAST_eq : TOK_BINOP_LAST = 97 := TOK_eq_of_lookup (by decide!)
@[simp] theorem TOK_TYPEOF_eq : TOK_TYPEOF = 98 := TOK_eq_of_lookup (by decide!)
@[simp] theorem TOK_KEYWORD_UNOP_FIRST_eq : TOK_KEYWORD_UNOP_FIRST = 98 := TOK_eq_of_lookup (by decide!)
@[simp] theorem TOK_VOID_eq : TOK_VOID = 99 := TOK_eq_of_lookup (by decide!)
@[simp] theorem TOK_KEYWORD_UNOP_LAST_eq : TOK_KEYWORD_UNOP_LAST = 99 := TOK_eq_of_lookup (by decide!)
@[simp] theorem TOK_NOT_eq : TOK_NOT = 100 := TOK_eq_of_lookup (by decide!)
@[simp] theorem TOK_BITNOT_eq : TOK_BITNOT = 101 := TOK_eq_of_lookup (by decide!)
@[simp] theorem TOK_ARROW_eq : TOK_ARROW = 102 := TOK_eq_of_lookup (by decide!)
@[simp] theorem TOK_ASSIGN_eq : TOK_ASSIGN = 103 := TOK_eq_of_lookup (by decide!)
@[simp] theorem TOK_ASSIGNMENT_START_eq : TOK_ASSIGNMENT_START = 103 := TOK_eq_of_lookup (by decide!)
@[simp] theorem TOK_ADDASSIGN_eq : TOK_ADDASSIGN = 104 := TOK_eq_of_lookup (by decide!)
@[simp] theorem TOK_SUBASSIGN_eq : TOK_SUBASSIGN = 105 := TOK_eq_of_lookup (by decide!)
@[simp] theorem TOK_BITORASSIGN_eq : TOK_BITORASSIGN = 106 := TOK_eq_of_lookup (by decide!)
@[simp] theorem TOK_BITXORASSIGN_eq : TOK_BITXORASSIGN = 107 := TOK_eq_of_lookup (by decide!)
@[simp] theorem TOK_BITANDASSIGN_eq : TOK_BITANDASSIGN = 108 := TOK_eq_of_lookup (by decide!)
@[simp] theorem TOK_LSHASSIGN_eq : TOK_LSHASSIGN = 109 := TOK_eq_of_lookup (by decide!)
@[simp] theorem TOK_RSHASSIGN_eq : TOK_RSHASSIGN = 110 := TOK_eq_of_lookup (by decide!)
@[simp] theorem TOK_URSHASSIGN_eq : TOK_URSHASSIGN = 111 := TOK_eq_of_lookup (by decide!)
@[simp] theorem TOK_MULASSIGN_eq : TOK_MULASSIGN = 112 := TOK_eq_of_lookup (by decide!)
@[simp] theorem TOK_DIVASSIGN_eq : TOK_DIVASSIGN = 113 := TOK_eq_of_lookup (by decide!)
@[simp] theorem TOK_MODASSIGN_eq : TOK_MODASSIGN = 114 := TOK_eq_of_lookup (by decide!)
@[simp] theorem TOK_POWASSIGN_eq : TOK_POWASSIGN = 115 := TOK_eq_of_lookup (by decide!)
@[simp] theorem TOK_ASSIGNMENT_LAST_eq : TOK_ASSIGNMENT_LAST = 115 := TOK_eq_of_lookup (by decide!)
@[simp] theorem TOK_LIMIT_eq : TOK_LIMIT = 116 := TOK_eq_of_lookup (by decide!)


/-! ### Positions of the kinds and descriptions -/

set_option maxHeartbeats 4000000 in
theorem kind_enumerators :
    FOR_EACH_TOKEN_KIND.map (fun e => enumerator? e.1) = (List.range 116).map some := by
  simp only [enumerator?_eq_lookup]
  decide!

theorem FOR_EACH_TOKEN_KIND_length : FOR_EACH_TOKEN_KIND.length = 116 := by
  have h := congrArg List.length kind_enumerators
  simpa using h

theorem kind_positions :
    FOR_EACH_TOKEN_KIND.map (fun e => TOK e.1) = List.range' 0 116 := by
  have h := congrArg (List.map fun o : Option Nat => o.getD 0) kind_enumerators
  simp only [List.map_map, Function.comp_def, Option.getD_some, List.map_id'] at h
  simp only [TOK_def]
  rw [h, List.range_eq_range']

theorem lookup_zip_range' {β : Type} (l : List β) (s k : Nat) :
    ((List.range' s l.length).zip l).lookup k = if s ≤ k then l[k - s]? else none := by
  induction l generalizing s with
  | nil => simp
  | cons b l ih =>
    simp only [List.length_cons, List.range'_succ, List.zip_cons_cons, List.lookup_cons]
    by_cases hks : k = s
    · subst hks
      simp
    · have hbeq : (k == s) = false := by simpa using hks
      rw [hbeq, ih]
      by_cases hle : s ≤ k
      · have hlt : s + 1 ≤ k := by omega
        have hsub : k - s = (k - (s + 1)) + 1 := by omega
        simp [hle, hlt, hsub]
      · have hlt : ¬ (s + 1 ≤ k) := by omega
        simp [hle, hlt]

theorem descriptionCases_eq :
    descriptionCases =
      (List.range' 0 (FOR_EACH_TOKEN_KIND.map Prod.snd).length).zip
        (FOR_EACH_TOKEN_KIND.map Prod.snd) := by
  rw [List.length_map, FOR_EACH_TOKEN_KIND_length, ← kind_positions, List.zip_map']
  unfold descriptionCases
  rfl

theorem description_eq_getElem? (k : TokenKind) :
    description k = (FOR_EACH_TOKEN_KIND.map Prod.snd)[k]? := by
  unfold description
  rw [descriptionCases_eq, lookup_zip_range']
  simp

set_option maxHeartbeats 4000000 in
theorem descriptions_nonempty : ∀ s ∈ FOR_EACH_TOKEN_KIND.map Prod.snd, s ≠ "" := by
  decide!

set_option maxHeartbeats 4000000 in
theorem descriptions_nodup : (FOR_EACH_TOKEN_KIND.map Prod.snd).Nodup := by
  refine List.Nodup.of_map
    (fun s : String => s.data.foldl (fun n c => 1114112 * n + c.toNat) 0) ?_
  decide!

/-! ### Classification predicates -/

/-- Claim C1. `TokenKindIsKeyword` holds for a token kind exactly when the kind
is one of the 28 syntactic keywords `THIS` .. `SUPER`, the keyword binary
operators `INSTANCEOF`, `IN`, or the keyword unary operators `TYPEOF`, `VOID`.
This holds for every value of the enumeration type, hence for every position
below `TOK_LIMIT`. It is false for `NAME`, `ASYNC` and `AS`. -/
theorem tokenKindIsKeyword_iff :
    (∀ k : TokenKind, TokenKindIsKeyword k = true ↔
      k ∈ [TOK_THIS, TOK_FUNCTION, TOK_IF, TOK_ELSE, TOK_SWITCH, TOK_CASE, TOK_DEFAULT,
           TOK_WHILE, TOK_DO, TOK_FOR, TOK_BREAK, TOK_CONTINUE, TOK_VAR, TOK_CONST,
           TOK_WITH, TOK_RETURN, TOK_NEW, TOK_DELETE, TOK_TRY, TOK_CATCH, TOK_FINALLY,
           TOK_THROW, TOK_DEBUGGER, TOK_EXPORT, TOK_IMPORT, TOK_CLASS, TOK_EXTENDS,
           TOK_SUPER, TOK_INSTANCEOF, TOK_IN, TOK_TYPEOF, TOK_VOID]) ∧
    TokenKindIsKeyword TOK_NAME = false ∧
    TokenKindIsKeyword TOK_ASYNC = false ∧
    TokenKindIsKeyword TOK_AS = false := by
  refine ⟨fun k => ?_, ?_, ?_, ?_⟩
  · simp [TokenKindIsKeyword]
    simp only [TokenKind] at k ⊢
    omega
  all_goals simp [TokenKindIsKeyword]

/-- Claim C2. `TokenKindIsBinaryOp` holds for a token kind exactly when the
kind is one of the 25 kinds `COALESCE` .. `POW` listed; the list has 25
different members. It is true at the endpoints `COALESCE` and `POW` and false
for `ARROW`. -/
theorem tokenKindIsBinaryOp_iff :
    (∀ k : TokenKind, TokenKindIsBinaryOp k = true ↔
      k ∈ [TOK_COALESCE, TOK_OR, TOK_AND, TOK_BITOR, TOK_BITXOR, TOK_BITAND, TOK_STRICTEQ,
           TOK_EQ, TOK_STRICTNE, TOK_NE, TOK_LT, TOK_LE, TOK_GT, TOK_GE, TOK_INSTANCEOF,
           TOK_IN, TOK_LSH, TOK_RSH, TOK_URSH, TOK_ADD, TOK_SUB, TOK_MUL, TOK_DIV,
           TOK_MOD, TOK_POW]) ∧
    [TOK_COALESCE, TOK_OR, TOK_AND, TOK_BITOR, TOK_BITXOR, TOK_BITAND, TOK_STRICTEQ,
      TOK_EQ, TOK_STRICTNE, TOK_NE, TOK_LT, TOK_LE, TOK_GT, TOK_GE, TOK_INSTANCEOF,
      TOK_IN, TOK_LSH, TOK_RSH, TOK_URSH, TOK_ADD, TOK_SUB, TOK_MUL, TOK_DIV,
      TOK_MOD, TOK_POW].Nodup ∧
    [TOK_COALESCE, TOK_OR, TOK_AND, TOK_BITOR, TOK_BITXOR, TOK_BITAND, TOK_STRICTEQ,
      TOK_EQ, TOK_STRICTNE, TOK_NE, TOK_LT, TOK_LE, TOK_GT, TOK_GE, TOK_INSTANCEOF,
      TOK_IN, TOK_LSH, TOK_RSH, TOK_URSH, TOK_ADD, TOK_SUB, TOK_MUL, TOK_DIV,
      TOK_MOD, TOK_POW].length = 25 ∧
    TokenKindIsBinaryOp TOK_COALESCE = true ∧
    TokenKindIsBinaryOp TOK_POW = true ∧
    TokenKindIsBinaryOp TOK_ARROW = false := by
  refine ⟨fun k => ?_, ?_, rfl, ?_, ?_, ?_⟩
  · simp [TokenKindIsBinaryOp]
    simp only [TokenKind] at k ⊢
    omega
  · simp
  all_goals simp [TokenKindIsBinaryOp]

/-- Claim C3. `TokenKindIsAssignment` holds for a token kind exactly when the
kind is one of the 13 kinds `ASSIGN` .. `POWASSIGN` listed; the list has 13
different members. It is true for `ASSIGN` and `POWASSIGN` and false for
`ADD`. -/
theorem tokenKindIsAssignment_iff :
    (∀ k : TokenKind, TokenKindIsAssignment k = true ↔
      k ∈ [TOK_ASSIGN, TOK_ADDASSIGN, TOK_SUBASSIGN, TOK_BITORASSIGN, TOK_BITXORASSIGN,
           TOK_BITANDASSIGN, TOK_LSHASSIGN, TOK_RSHASSIGN, TOK_URSHASSIGN, TOK_MULASSIGN,
           TOK_DIVASSIGN, TOK_MODASSIGN, TOK_POWASSIGN]) ∧
    [TOK_ASSIGN, TOK_ADDASSIGN, TOK_SUBASSIGN, TOK_BITORASSIGN, TOK_BITXORASSIGN,
      TOK_BITANDASSIGN, TOK_LSHASSIGN, TOK_RSHASSIGN, TOK_URSHASSIGN, TOK_MULASSIGN,
      TOK_DIVASSIGN, TOK_MODASSIGN, TOK_POWASSIGN].Nodup ∧
    [TOK_ASSIGN, TOK_ADDASSIGN, TOK_SUBASSIGN, TOK_BITORASSIGN, TOK_BITXORASSIGN,
      TOK_BITANDASSIGN, TOK_LSHASSIGN, TOK_RSHASSIGN, TOK_URSHASSIGN, TOK_MULASSIGN,
      TOK_DIVASSIGN, TOK_MODASSIGN, TOK_POWASSIGN].length = 13 ∧
    TokenKindIsAssignment TOK_ASSIGN = true ∧
    TokenKindIsAssignment TOK_POWASSIGN = true ∧
    TokenKindIsAssignment TOK_ADD = false := by
  refine ⟨fun k => ?_, ?_, rfl, ?_, ?_, ?_⟩
  · simp [TokenKindIsAssignment]
    simp only [TokenKind] at k ⊢
    omega
  · simp
  all_goals simp [TokenKindIsAssignment]

/-- Claim C4. `TokenKindIsPossibleIdentifier` holds for a token kind exactly
when the kind is `NAME`, one of the twelve contextual keywords `AS` .. `YIELD`,
or one of the six strict-mode reserved words `IMPLEMENTS` .. `PUBLIC`; the
list has 19 different members. -/
theorem tokenKindIsPossibleIdentifier_iff :
    (∀ k : TokenKind, TokenKindIsPossibleIdentifier k = true ↔
      k ∈ [TOK_NAME,
           TOK_AS, TOK_ASYNC, TOK_AWAIT, TOK_EACH, TOK_FROM, TOK_GET, TOK_LET, TOK_OF,
           TOK_SET, TOK_STATIC, TOK_TARGET, TOK_YIELD,
           TOK_IMPLEMENTS, TOK_INTERFACE, TOK_PACKAGE, TOK_PRIVATE, TOK_PROTECTED,
           TOK_PUBLIC]) ∧
    [TOK_NAME,
      TOK_AS, TOK_ASYNC, TOK_AWAIT, TOK_EACH, TOK_FROM, TOK_GET, TOK_LET, TOK_OF,
      TOK_SET, TOK_STATIC, TOK_TARGET, TOK_YIELD,
      TOK_IMPLEMENTS, TOK_INTERFACE, TOK_PACKAGE, TOK_PRIVATE, TOK_PROTECTED,
      TOK_PUBLIC].Nodup ∧
    [TOK_NAME,
      TOK_AS, TOK_ASYNC, TOK_AWAIT, TOK_EACH, TOK_FROM, TOK_GET, TOK_LET, TOK_OF,
      TOK_SET, TOK_STATIC, TOK_TARGET, TOK_YIELD,
      TOK_IMPLEMENTS, TOK_INTERFACE, TOK_PACKAGE, TOK_PRIVATE, TOK_PROTECTED,
      TOK_PUBLIC].length = 19 := by
  refine ⟨fun k => ?_, ?_, rfl⟩
  · simp [TokenKindIsPossibleIdentifier, TokenKindIsContextualKeyword,
      TokenKindIsStrictReservedWord]
    simp only [TokenKind] at k ⊢
    omega
  · simp

/-- Claim C5. A token kind is a possible identifier name exactly when it is a
reserved word or a possible identifier, and `NAME` is not a reserved word: it
is a possible identifier name through `TokenKindIsPossibleIdentifier` only. -/
theorem tokenKindIsPossibleIdentifierName_iff :
    (∀ k : TokenKind, TokenKindIsPossibleIdentifierName k = true ↔
      (TokenKindIsReservedWord k = true ∨ TokenKindIsPossibleIdentifier k = true)) ∧
    TokenKindIsReservedWord TOK_NAME = false ∧
    TokenKindIsPossibleIdentifier TOK_NAME = true ∧
    TokenKindIsPossibleIdentifierName TOK_NAME = true := by
  refine ⟨fun k => ?_, ?_, ?_, ?_⟩
  · unfold TokenKindIsPossibleIdentifierName
    rw [Bool.or_eq_true]
    exact Or.comm
  all_goals simp [TokenKindIsPossibleIdentifierName, TokenKindIsPossibleIdentifier,
    TokenKindIsReservedWord, TokenKindIsKeyword, TokenKindIsFutureReservedWord,
    TokenKindIsReservedWordLiteral, TokenKindIsContextualKeyword,
    TokenKindIsStrictReservedWord]

/-- Claim C6. No token kind is both a reserved word and a possible identifier:
the two predicates are never true together, and spelled out, no keyword,
future reserved word or reserved literal is `NAME`, a contextual keyword or a
strict-mode reserved word. -/
theorem reservedWord_not_possibleIdentifier :
    (∀ k : TokenKind,
      (TokenKindIsReservedWord k && TokenKindIsPossibleIdentifier k) = false) ∧
    (∀ k : TokenKind,
      ((TokenKindIsKeyword k || TokenKindIsFutureReservedWord k ||
          TokenKindIsReservedWordLiteral k) &&
        (k == TOK_NAME || TokenKindIsContextualKeyword k ||
          TokenKindIsStrictReservedWord k)) = false) := by
  refine ⟨fun k => ?_, fun k => ?_⟩
  all_goals
    rw [Bool.eq_false_iff]
    simp [TokenKindIsPossibleIdentifier, TokenKindIsReservedWord, TokenKindIsKeyword,
      TokenKindIsFutureReservedWord, TokenKindIsReservedWordLiteral,
      TokenKindIsContextualKeyword, TokenKindIsStrictReservedWord]
    simp only [TokenKind] at k ⊢
    omega

/-! ### The enumeration, the sentinel and the descriptions -/

/-- Claim C7. The enumeration gives the declared kinds, in declaration order,
the positions 0, 1, .., 115 (so no gap and no shared position), with `EOF` at
0 and `POWASSIGN` at 115. Each of the 24 range markers has the value of the
kind it is bound to, a kind declared in the table, and takes no position of
its own: after the 140 lines of the table `TOK_LIMIT` is 116, the number of
declared kinds. -/
theorem enumerator_positions :
    FOR_EACH_TOKEN_KIND.map (fun e => enumerator? e.1) = (List.range 116).map some ∧
    TOK_EOF = 0 ∧
    TOK_POWASSIGN = 115 ∧
    rangeMarkers.map (fun r => enumerator? r.1) = rangeMarkers.map (fun r => enumerator? r.2) ∧
    (rangeMarkers.all fun r => (FOR_EACH_TOKEN_KIND.map Prod.fst).contains r.2) = true ∧
    rangeMarkers.length = 24 ∧
    FOR_EACH_TOKEN_KIND_WITH_RANGE.length = 140 ∧
    FOR_EACH_TOKEN_KIND.length = 116 ∧
    enumerator? TokenName.LIMIT = some 116 ∧
    TOK_LIMIT = 116 ∧
    TOK_LIMIT = FOR_EACH_TOKEN_KIND.length := by
  refine ⟨kind_enumerators, TOK_EOF_eq, TOK_POWASSIGN_eq, ?_, ?_, ?_, ?_,
    FOR_EACH_TOKEN_KIND_length, ?_, TOK_LIMIT_eq, ?_⟩
  · simp only [enumerator?_eq_lookup]
    decide!
  · decide!
  · decide!
  · decide!
  · rw [enumerator?_eq_lookup]
    decide!
  · rw [TOK_LIMIT_eq, FOR_EACH_TOKEN_KIND_length]

/-- Claim C8. At the domain-size sentinel `TOK_LIMIT`, and at every value from
it upwards, each of the thirteen classification predicates returns `false`. -/
theorem predicates_false_from_limit (k : TokenKind) (h : TOK_LIMIT ≤ k) :
    TokenKindIsBinaryOp k = false ∧
    TokenKindIsEquality k = false ∧
    TokenKindIsRelational k = false ∧
    TokenKindIsShift k = false ∧
    TokenKindIsAssignment k = false ∧
    TokenKindIsKeyword k = false ∧
    TokenKindIsContextualKeyword k = false ∧
    TokenKindIsFutureReservedWord k = false ∧
    TokenKindIsStrictReservedWord k = false ∧
    TokenKindIsReservedWordLiteral k = false ∧
    TokenKindIsReservedWord k = false ∧
    TokenKindIsPossibleIdentifier k = false ∧
    TokenKindIsPossibleIdentifierName k = false := by
  rw [TOK_LIMIT_eq] at h
  simp only [TokenKind] at k h
  simp [TokenKindIsBinaryOp, TokenKindIsEquality, TokenKindIsRelational, TokenKindIsShift,
    TokenKindIsAssignment, TokenKindIsPossibleIdentifierName, TokenKindIsPossibleIdentifier,
    TokenKindIsReservedWord, TokenKindIsKeyword, TokenKindIsFutureReservedWord,
    TokenKindIsReservedWordLiteral, TokenKindIsContextualKeyword,
    TokenKindIsStrictReservedWord]
  simp only [TokenKind] at k ⊢
  omega

/-- Witness for claim C8 at the sentinel value 116. -/
theorem predicates_false_from_limit_witness :
    TOK_LIMIT ≤ 116 ∧
    (TokenKindIsBinaryOp 116 = false ∧
    TokenKindIsEquality 116 = false ∧
    TokenKindIsRelational 116 = false ∧
    TokenKindIsShift 116 = false ∧
    TokenKindIsAssignment 116 = false ∧
    TokenKindIsKeyword 116 = false ∧
    TokenKindIsContextualKeyword 116 = false ∧
    TokenKindIsFutureReservedWord 116 = false ∧
    TokenKindIsStrictReservedWord 116 = false ∧
    TokenKindIsReservedWordLiteral 116 = false ∧
    TokenKindIsReservedWord 116 = false ∧
    TokenKindIsPossibleIdentifier 116 = false ∧
    TokenKindIsPossibleIdentifierName 116 = false) :=
  ⟨le_of_eq TOK_LIMIT_eq, predicates_false_from_limit 116 (le_of_eq TOK_LIMIT_eq)⟩

/-- Claim C9. For every declared kind, that is every position below
`TOK_LIMIT`, `description` returns a string and the string is not empty; the
description of `SEMI` is `';'` in quotes and that of `NAME` is `identifier`. -/
theorem description_total_nonempty (k : TokenKind) (h : k < TOK_LIMIT) :
    (∃ s : String, description k = some s ∧ s ≠ "") ∧
    description TOK_SEMI = some "';'" ∧
    description TOK_NAME = some "identifier" := by
  rw [TOK_LIMIT_eq] at h
  have hlen : k < (FOR_EACH_TOKEN_KIND.map Prod.snd).length := by
    rw [List.length_map, FOR_EACH_TOKEN_KIND_length]
    exact h
  refine ⟨⟨(FOR_EACH_TOKEN_KIND.map Prod.snd)[k], ?_, ?_⟩, ?_, ?_⟩
  · rw [description_eq_getElem?, List.getElem?_eq_getElem hlen]
  · exact descriptions_nonempty _ (List.getElem_mem hlen)
  · rw [description_eq_getElem?, TOK_SEMI_eq]
    decide!
  · rw [description_eq_getElem?, TOK_NAME_eq]
    decide!

/-- Witness for claim C9 at position 2, the kind `SEMI`. -/
theorem description_total_nonempty_witness :
    (2 : TokenKind) < TOK_LIMIT ∧
    ((∃ s : String, description 2 = some s ∧ s ≠ "") ∧
      description TOK_SEMI = some "';'" ∧
      description TOK_NAME = some "identifier") :=
  ⟨by rw [TOK_LIMIT_eq]; decide, description_total_nonempty 2 (by rw [TOK_LIMIT_eq]; decide)⟩

/-- Claim C10. Two different declared kinds have different descriptions: at
two different positions below `TOK_LIMIT`, `description` returns two strings
that differ. The description of `COALESCE` is the four characters quote, `?`,
`?`, quote. -/
theorem description_injective (k1 k2 : TokenKind) (h1 : k1 < TOK_LIMIT) (h2 : k2 < TOK_LIMIT)
    (hne : k1 ≠ k2) :
    (∃ s1 s2 : String, description k1 = some s1 ∧ description k2 = some s2 ∧ s1 ≠ s2) ∧
    description k1 ≠ description k2 ∧
    description TOK_COALESCE = some "'??'" ∧
    (description TOK_COALESCE).map String.length = some 4 := by
  rw [TOK_LIMIT_eq] at h1 h2
  have hlen : (FOR_EACH_TOKEN_KIND.map Prod.snd).length = 116 := by
    rw [List.length_map, FOR_EACH_TOKEN_KIND_length]
  have hl1 : k1 < (FOR_EACH_TOKEN_KIND.map Prod.snd).length := by rw [hlen]; exact h1
  have hl2 : k2 < (FOR_EACH_TOKEN_KIND.map Prod.snd).length := by rw [hlen]; exact h2
  have hd1 : description k1 = some (FOR_EACH_TOKEN_KIND.map Prod.snd)[k1] := by
    rw [description_eq_getElem?, List.getElem?_eq_getElem hl1]
  have hd2 : description k2 = some (FOR_EACH_TOKEN_KIND.map Prod.snd)[k2] := by
    rw [description_eq_getElem?, List.getElem?_eq_getElem hl2]
  have hs : (FOR_EACH_TOKEN_KIND.map Prod.snd)[k1] ≠ (FOR_EACH_TOKEN_KIND.map Prod.snd)[k2] :=
    fun heq => hne ((descriptions_nodup.getElem_inj_iff).1 heq)
  have hc : description TOK_COALESCE = some "'??'" := by
    rw [description_eq_getElem?, TOK_COALESCE_eq]
    decide!
  refine ⟨⟨_, _, hd1, hd2, hs⟩, ?_, hc, ?_⟩
  · rw [hd1, hd2]
    exact fun heq => hs (Option.some.inj heq)
  · rw [hc]
    decide

/-- Witness for claim C10 at positions 4 and 10, the kinds `HOOK` and
`OPTCHAIN`. -/
theorem description_injective_witness :
    (4 : TokenKind) < TOK_LIMIT ∧ (10 : TokenKind) < TOK_LIMIT ∧ (4 : TokenKind) ≠ 10 ∧
    ((∃ s1 s2 : String, description 4 = some s1 ∧ description 10 = some s2 ∧ s1 ≠ s2) ∧
      description 4 ≠ description 10 ∧
      description TOK_COALESCE = some "'??'" ∧
      (description TOK_COALESCE).map String.length = some 4) :=
  ⟨by rw [TOK_LIMIT_eq]; decide, by rw [TOK_LIMIT_eq]; decide, by decide,
    description_injective 4 10 (by rw [TOK_LIMIT_eq]; decide) (by rw [TOK_LIMIT_eq]; decide)
      (by decide)⟩

/-! ### Relations between the ranges -/

/-- Claim C11. The three keyword ranges `KEYWORD`, `KEYWORD_BINOP` and
`KEYWORD_UNOP` are mutually exclusive: no value lies in two of them. -/
theorem keyword_ranges_exclusive :
    ∀ k : TokenKind,
      ¬ ((TOK_KEYWORD_FIRST ≤ k ∧ k ≤ TOK_KEYWORD_LAST) ∧
          (TOK_KEYWORD_BINOP_FIRST ≤ k ∧ k ≤ TOK_KEYWORD_BINOP_LAST)) ∧
      ¬ ((TOK_KEYWORD_FIRST ≤ k ∧ k ≤ TOK_KEYWORD_LAST) ∧
          (TOK_KEYWORD_UNOP_FIRST ≤ k ∧ k ≤ TOK_KEYWORD_UNOP_LAST)) ∧
      ¬ ((TOK_KEYWORD_BINOP_FIRST ≤ k ∧ k ≤ TOK_KEYWORD_BINOP_LAST) ∧
          (TOK_KEYWORD_UNOP_FIRST ≤ k ∧ k ≤ TOK_KEYWORD_UNOP_LAST)) := by
  intro k
  simp only [TOK_KEYWORD_FIRST_eq, TOK_KEYWORD_LAST_eq, TOK_KEYWORD_BINOP_FIRST_eq,
    TOK_KEYWORD_BINOP_LAST_eq, TOK_KEYWORD_UNOP_FIRST_eq, TOK_KEYWORD_UNOP_LAST_eq]
  simp only [TokenKind] at k ⊢
  omega

/-- Claim C12. Each of the twelve ranges is well formed: its first marker is
at most its last marker and both lie below `TOK_LIMIT`; moreover each of the
24 markers is the position of a kind declared in the table. -/
theorem ranges_well_formed :
    (TOK_RESERVED_WORD_LITERAL_FIRST ≤ TOK_RESERVED_WORD_LITERAL_LAST ∧
      TOK_RESERVED_WORD_LITERAL_FIRST < TOK_LIMIT ∧ TOK_RESERVED_WORD_LITERAL_LAST < TOK_LIMIT) ∧
    (TOK_KEYWORD_FIRST ≤ TOK_KEYWORD_LAST ∧
      TOK_KEYWORD_FIRST < TOK_LIMIT ∧ TOK_KEYWORD_LAST < TOK_LIMIT) ∧
    (TOK_CONTEXTUAL_KEYWORD_FIRST ≤ TOK_CONTEXTUAL_KEYWORD_LAST ∧
      TOK_CONTEXTUAL_KEYWORD_FIRST < TOK_LIMIT ∧ TOK_CONTEXTUAL_KEYWORD_LAST < TOK_LIMIT) ∧
    (TOK_FUTURE_RESERVED_KEYWORD_FIRST ≤ TOK_FUTURE_RESERVED_KEYWORD_LAST ∧
      TOK_FUTURE_RESERVED_KEYWORD_FIRST < TOK_LIMIT ∧
      TOK_FUTURE_RESERVED_KEYWORD_LAST < TOK_LIMIT) ∧
    (TOK_STRICT_RESERVED_KEYWORD_FIRST ≤ TOK_STRICT_RESERVED_KEYWORD_LAST ∧
      TOK_STRICT_RESERVED_KEYWORD_FIRST < TOK_LIMIT ∧
      TOK_STRICT_RESERVED_KEYWORD_LAST < TOK_LIMIT) ∧
    (TOK_BINOP_FIRST ≤ TOK_BINOP_LAST ∧
      TOK_BINOP_FIRST < TOK_LIMIT ∧ TOK_BINOP_LAST < TOK_LIMIT) ∧
    (TOK_EQUALITY_START ≤ TOK_EQUALITY_LAST ∧
      TOK_EQUALITY_START < TOK_LIMIT ∧ TOK_EQUALITY_LAST < TOK_LIMIT) ∧
    (TOK_RELOP_START ≤ TOK_RELOP_LAST ∧
      TOK_RELOP_START < TOK_LIMIT ∧ TOK_RELOP_LAST < TOK_LIMIT) ∧
    (TOK_KEYWORD_BINOP_FIRST ≤ TOK_KEYWORD_BINOP_LAST ∧
      TOK_KEYWORD_BINOP_FIRST < TOK_LIMIT ∧ TOK_KEYWORD_BINOP_LAST < TOK_LIMIT) ∧
    (TOK_SHIFTOP_START ≤ TOK_SHIFTOP_LAST ∧
      TOK_SHIFTOP_START < TOK_LIMIT ∧ TOK_SHIFTOP_LAST < TOK_LIMIT) ∧
    (TOK_KEYWORD_UNOP_FIRST ≤ TOK_KEYWORD_UNOP_LAST ∧
      TOK_KEYWORD_UNOP_FIRST < TOK_LIMIT ∧ TOK_KEYWORD_UNOP_LAST < TOK_LIMIT) ∧
    (TOK_ASSIGNMENT_START ≤ TOK_ASSIGNMENT_LAST ∧
      TOK_ASSIGNMENT_START < TOK_LIMIT ∧ TOK_ASSIGNMENT_LAST < TOK_LIMIT) ∧
    rangeMarkers.map (fun r => TOK r.1) =
      [TOK_RESERVED_WORD_LITERAL_FIRST, TOK_RESERVED_WORD_LITERAL_LAST,
       TOK_KEYWORD_FIRST, TOK_KEYWORD_LAST,
       TOK_CONTEXTUAL_KEYWORD_FIRST, TOK_CONTEXTUAL_KEYWORD_LAST,
       TOK_FUTURE_RESERVED_KEYWORD_FIRST, TOK_FUTURE_RESERVED_KEYWORD_LAST,
       TOK_STRICT_RESERVED_KEYWORD_FIRST, TOK_STRICT_RESERVED_KEYWORD_LAST,
       TOK_BINOP_FIRST, TOK_EQUALITY_START, TOK_EQUALITY_LAST, TOK_RELOP_START, TOK_RELOP_LAST,
       TOK_KEYWORD_BINOP_FIRST, TOK_KEYWORD_BINOP_LAST, TOK_SHIFTOP_START, TOK_SHIFTOP_LAST,
       TOK_BINOP_LAST, TOK_KEYWORD_UNOP_FIRST, TOK_KEYWORD_UNOP_LAST,
       TOK_ASSIGNMENT_START, TOK_ASSIGNMENT_LAST] ∧
    (rangeMarkers.all fun r =>
      (FOR_EACH_TOKEN_KIND.map fun e => TOK e.1).contains (TOK r.1)) = true := by
  refine ⟨?_, ?_, ?_, ?_, ?_, ?_, ?_, ?_, ?_, ?_, ?_, ?_, ?_, ?_⟩
  iterate 12 simp
  · rfl
  · rw [kind_positions]
    simp only [TOK_def, enumerator?_eq_lookup]
    decide!

/-- Claim C13. The equality, relational, shift and keyword-binary ranges lie
inside the binary-operator range: a value that satisfies `TokenKindIsEquality`,
`TokenKindIsRelational` or `TokenKindIsShift`, or lies between
`TOK_KEYWORD_BINOP_FIRST` and `TOK_KEYWORD_BINOP_LAST`, satisfies
`TokenKindIsBinaryOp`. -/
theorem subranges_in_binaryOp (k : TokenKind)
    (h : TokenKindIsEquality k = true ∨ TokenKindIsRelational k = true ∨
      TokenKindIsShift k = true ∨
      (TOK_KEYWORD_BINOP_FIRST ≤ k ∧ k ≤ TOK_KEYWORD_BINOP_LAST)) :
    TokenKindIsBinaryOp k = true := by
  simp [TokenKindIsEquality, TokenKindIsRelational, TokenKindIsShift] at h
  simp [TokenKindIsBinaryOp]
  simp only [TokenKind] at k h ⊢
  omega

/-- Witness for claim C13 at `TOK_IN`, a member of the keyword-binary range. -/
theorem subranges_in_binaryOp_witness :
    (TokenKindIsEquality TOK_IN = true ∨ TokenKindIsRelational TOK_IN = true ∨
      TokenKindIsShift TOK_IN = true ∨
      (TOK_KEYWORD_BINOP_FIRST ≤ TOK_IN ∧ TOK_IN ≤ TOK_KEYWORD_BINOP_LAST)) ∧
    TokenKindIsBinaryOp TOK_IN = true :=
  ⟨Or.inr (Or.inr (Or.inr (by simp))),
    subranges_in_binaryOp TOK_IN (Or.inr (Or.inr (Or.inr (by simp))))⟩

/-- Counterexample to claim C14 as stated: `ASSIGN` is an assignment kind and
not a binary operator, so the assignment range is not inside the
binary-operator range. -/
theorem assignment_in_binaryOp_fails :
    TokenKindIsAssignment TOK_ASSIGN = true ∧
    TokenKindIsBinaryOp TOK_ASSIGN = false ∧
    ¬ (∀ k : TokenKind, TokenKindIsAssignment k = true → TokenKindIsBinaryOp k = true) := by
  have h1 : TokenKindIsAssignment TOK_ASSIGN = true := by simp [TokenKindIsAssignment]
  have h2 : TokenKindIsBinaryOp TOK_ASSIGN = false := by simp [TokenKindIsBinaryOp]
  refine ⟨h1, h2, fun hall => ?_⟩
  have h3 := hall TOK_ASSIGN h1
  rw [h2] at h3
  exact Bool.false_ne_true h3

/-- Claim C14, amended. The assignment range lies entirely above the
binary-operator range (`TOK_BINOP_LAST < TOK_ASSIGNMENT_START`), so the two
ranges are disjoint: a value that satisfies `TokenKindIsAssignment` does not
satisfy `TokenKindIsBinaryOp`. -/
theorem assignment_not_binaryOp (k : TokenKind) (h : TokenKindIsAssignment k = true) :
    TokenKindIsBinaryOp k = false ∧ TOK_BINOP_LAST < TOK_ASSIGNMENT_START ∧ TOK_BINOP_LAST < k := by
  simp [TokenKindIsAssignment] at h
  simp [TokenKindIsBinaryOp]
  simp only [TokenKind] at k h ⊢
  omega

/-- Witness for the amended claim C14 at `TOK_POWASSIGN`. -/
theorem assignment_not_binaryOp_witness :
    TokenKindIsAssignment TOK_POWASSIGN = true ∧
    (TokenKindIsBinaryOp TOK_POWASSIGN = false ∧ TOK_BINOP_LAST < TOK_ASSIGNMENT_START ∧
      TOK_BINOP_LAST < TOK_POWASSIGN) :=
  ⟨by simp [TokenKindIsAssignment],
    assignment_not_binaryOp TOK_POWASSIGN (by simp [TokenKindIsAssignment])⟩

/-- Claim C15. The keywords are not one interval: `SUPER`, `AS`, `INSTANCEOF`
are increasing positions of which the first and the last are keywords and the
middle one is not; the three keyword ranges are pairwise separated by at least
one position; and no interval `[lo, hi]` has exactly the keywords as
members. -/
theorem keywords_not_contiguous :
    (TOK_SUPER < TOK_AS ∧ TOK_AS < TOK_INSTANCEOF ∧
      TokenKindIsKeyword TOK_SUPER = true ∧ TokenKindIsKeyword TOK_AS = false ∧
      TokenKindIsKeyword TOK_INSTANCEOF = true) ∧
    (∃ a b c : TokenKind, a < b ∧ b < c ∧ TokenKindIsKeyword a = true ∧
      TokenKindIsKeyword b = false ∧ TokenKindIsKeyword c = true) ∧
    (TOK_KEYWORD_LAST + 1 < TOK_KEYWORD_BINOP_FIRST ∧
      TOK_KEYWORD_BINOP_LAST + 1 < TOK_KEYWORD_UNOP_FIRST ∧
      TOK_KEYWORD_LAST + 1 < TOK_KEYWORD_UNOP_FIRST) ∧
    ¬ (∃ lo hi : TokenKind, ∀ k : TokenKind,
        TokenKindIsKeyword k = true ↔ (lo ≤ k ∧ k ≤ hi)) := by
  have hS : TokenKindIsKeyword TOK_SUPER = true := by simp [TokenKindIsKeyword]
  have hA : TokenKindIsKeyword TOK_AS = false := by simp [TokenKindIsKeyword]
  have hI : TokenKindIsKeyword TOK_INSTANCEOF = true := by simp [TokenKindIsKeyword]
  have hSA : TOK_SUPER < TOK_AS := by simp
  have hAI : TOK_AS < TOK_INSTANCEOF := by simp
  refine ⟨⟨hSA, hAI, hS, hA, hI⟩, ⟨TOK_SUPER, TOK_AS, TOK_INSTANCEOF, hSA, hAI, hS, hA, hI⟩,
    by simp, ?_⟩
  rintro ⟨lo, hi, hall⟩
  have h1 := (hall TOK_SUPER).1 hS
  have h2 := (hall TOK_INSTANCEOF).1 hI
  have h3 : TokenKindIsKeyword TOK_AS = true :=
    (hall TOK_AS).2 ⟨le_trans h1.1 (le_of_lt hSA), le_trans (le_of_lt hAI) h2.2⟩
  rw [hA] at h3
  exact Bool.false_ne_true h3

/-! ### Order of the operators -/

/-- Claim C16. The 25 binary operators are declared one after the other in
the order `COALESCE`, `OR`, .., `POW`: the table lists exactly these names from
its kind number 73 on, the kind at place `i` of the list has position
`TOK_BINOP_FIRST + i`, and `TOK_BINOP_LAST = TOK_BINOP_FIRST + 24`. -/
theorem binaryOp_order :
    [TOK_COALESCE, TOK_OR, TOK_AND, TOK_BITOR, TOK_BITXOR, TOK_BITAND, TOK_STRICTEQ,
      TOK_EQ, TOK_STRICTNE, TOK_NE, TOK_LT, TOK_LE, TOK_GT, TOK_GE, TOK_INSTANCEOF,
      TOK_IN, TOK_LSH, TOK_RSH, TOK_URSH, TOK_ADD, TOK_SUB, TOK_MUL, TOK_DIV,
      TOK_MOD, TOK_POW] = (List.range 25).map (fun i => TOK_BINOP_FIRST + i) ∧
    TOK_BINOP_LAST = TOK_BINOP_FIRST + 24 ∧
    TOK_COALESCE = TOK_BINOP_FIRST ∧
    TOK_POW = TOK_BINOP_LAST ∧
    ((FOR_EACH_TOKEN_KIND.map Prod.fst).drop TOK_BINOP_FIRST).take 25 =
      [TokenName.COALESCE, TokenName.OR, TokenName.AND, TokenName.BITOR, TokenName.BITXOR,
       TokenName.BITAND, TokenName.STRICTEQ, TokenName.EQ, TokenName.STRICTNE, TokenName.NE,
       TokenName.LT, TokenName.LE, TokenName.GT, TokenName.GE, TokenName.INSTANCEOF,
       TokenName.IN, TokenName.LSH, TokenName.RSH, TokenName.URSH, TokenName.ADD,
       TokenName.SUB, TokenName.MUL, TokenName.DIV, TokenName.MOD, TokenName.POW] := by
  refine ⟨?_, ?_, ?_, ?_, ?_⟩
  · simp only [TOK_COALESCE_eq, TOK_OR_eq, TOK_AND_eq, TOK_BITOR_eq, TOK_BITXOR_eq,
      TOK_BITAND_eq, TOK_STRICTEQ_eq, TOK_EQ_eq, TOK_STRICTNE_eq, TOK_NE_eq, TOK_LT_eq,
      TOK_LE_eq, TOK_GT_eq, TOK_GE_eq, TOK_INSTANCEOF_eq, TOK_IN_eq, TOK_LSH_eq, TOK_RSH_eq,
      TOK_URSH_eq, TOK_ADD_eq, TOK_SUB_eq, TOK_MUL_eq, TOK_DIV_eq, TOK_MOD_eq, TOK_POW_eq,
      TOK_BINOP_FIRST_eq]
    decide
  · simp
  · simp
  · simp
  · rw [TOK_BINOP_FIRST_eq]
    decide!

/-- Claim C17. `TokenKindIsEquality` holds exactly on `STRICTEQ`, `EQ`,
`STRICTNE`, `NE`; `TokenKindIsRelational` exactly on `LT`, `LE`, `GT`, `GE`;
`TokenKindIsShift` exactly on `LSH`, `RSH`, `URSH`. Each is false on the kind
one position below its first member and on the kind one position above its
last member: `BITAND` and `LT`, `NE` and `INSTANCEOF`, `IN` and `ADD`. -/
theorem operator_subranges_iff :
    (∀ k : TokenKind, TokenKindIsEquality k = true ↔
      k ∈ [TOK_STRICTEQ, TOK_EQ, TOK_STRICTNE, TOK_NE]) ∧
    (∀ k : TokenKind, TokenKindIsRelational k = true ↔
      k ∈ [TOK_LT, TOK_LE, TOK_GT, TOK_GE]) ∧
    (∀ k : TokenKind, TokenKindIsShift k = true ↔
      k ∈ [TOK_LSH, TOK_RSH, TOK_URSH]) ∧
    (TOK_BITAND + 1 = TOK_EQUALITY_START ∧ TokenKindIsEquality TOK_BITAND = false ∧
      TOK_LT = TOK_EQUALITY_LAST + 1 ∧ TokenKindIsEquality TOK_LT = false) ∧
    (TOK_NE + 1 = TOK_RELOP_START ∧ TokenKindIsRelational TOK_NE = false ∧
      TOK_INSTANCEOF = TOK_RELOP_LAST + 1 ∧ TokenKindIsRelational TOK_INSTANCEOF = false) ∧
    (TOK_IN + 1 = TOK_SHIFTOP_START ∧ TokenKindIsShift TOK_IN = false ∧
      TOK_ADD = TOK_SHIFTOP_LAST + 1 ∧ TokenKindIsShift TOK_ADD = false) := by
  refine ⟨fun k => ?_, fun k => ?_, fun k => ?_, ?_, ?_, ?_⟩
  · simp [TokenKindIsEquality]
    simp only [TokenKind] at k ⊢
    omega
  · simp [TokenKindIsRelational]
    simp only [TokenKind] at k ⊢
    omega
  · simp [TokenKindIsShift]
    simp only [TokenKind] at k ⊢
    omega
  · simp [TokenKindIsEquality]
  · simp [TokenKindIsRelational]
  · simp [TokenKindIsShift]

/-- Counterexample to claim C18 as stated: the position of `ARROW` is neither
`TOK_BINOP_LAST + 1` nor `TOK_BINOP_FIRST - 1`. -/
theorem arrow_adjacent_fails :
    ¬ (TOK_ARROW = TOK_BINOP_LAST + 1 ∨ TOK_ARROW = TOK_BINOP_FIRST - 1) ∧
    TOK_ARROW = 102 ∧ TOK_BINOP_LAST + 1 = 98 ∧ TOK_BINOP_FIRST - 1 = 72 := by
  simp

/-- Claim C18, amended. `ARROW` is declared above the binary-operator range
and is not a member of it, but it is not adjacent to it: its position is
`TOK_BINOP_LAST + 5`, with `TYPEOF`, `VOID`, `NOT` and `BITNOT` in between. The
kind immediately above the range is `TYPEOF`, the kind immediately below it is
`PUBLIC`. -/
theorem arrow_position :
    TOK_ARROW = TOK_BINOP_LAST + 5 ∧
    TokenKindIsBinaryOp TOK_ARROW = false ∧
    [TOK_TYPEOF, TOK_VOID, TOK_NOT, TOK_BITNOT, TOK_ARROW] =
      (List.range 5).map (fun i => TOK_BINOP_LAST + 1 + i) ∧
    TOK_TYPEOF = TOK_BINOP_LAST + 1 ∧
    TOK_PUBLIC = TOK_BINOP_FIRST - 1 := by
  refine ⟨by simp, by simp [TokenKindIsBinaryOp], ?_, by simp, by simp⟩
  simp only [TOK_TYPEOF_eq, TOK_VOID_eq, TOK_NOT_eq, TOK_BITNOT_eq, TOK_ARROW_eq,
    TOK_BINOP_LAST_eq]
  decide

/-! ### Descriptions and identifier names against the classification -/

theorem string_prefix_iff (p s : String) :
    (∃ t : String, s = p ++ t) ↔ p.data.isPrefixOf s.data = true := by
  rw [List.isPrefixOf_iff_prefix]
  constructor
  · rintro ⟨t, rfl⟩
    exact ⟨t.data, (String.data_append p t).symm⟩
  · rintro ⟨l, hl⟩
    exact ⟨⟨l⟩, String.ext (by rw [String.data_append, hl])⟩

theorem tokenKindIsKeyword_eq (k : TokenKind) :
    TokenKindIsKeyword k =
      (decide (26 ≤ k) && decide (k ≤ 53) || decide (87 ≤ k) && decide (k ≤ 88) ||
        decide (98 ≤ k) && decide (k ≤ 99)) := by
  simp only [TokenKindIsKeyword, TOK_KEYWORD_FIRST_eq, TOK_KEYWORD_LAST_eq,
    TOK_KEYWORD_BINOP_FIRST_eq, TOK_KEYWORD_BINOP_LAST_eq, TOK_KEYWORD_UNOP_FIRST_eq,
    TOK_KEYWORD_UNOP_LAST_eq]

set_option maxHeartbeats 4000000 in
theorem keyword_descriptions :
    ∀ k : Nat, k < 116 →
      (decide (26 ≤ k) && decide (k ≤ 53) || decide (87 ≤ k) && decide (k ≤ 88) ||
          decide (98 ≤ k) && decide (k ≤ 99)) =
        "keyword '".data.isPrefixOf (((FOR_EACH_TOKEN_KIND.map Prod.snd)[k]?).getD "").data := by
  decide!

/-- Claim C19. For every declared kind, `TokenKindIsKeyword` holds exactly
when the description of the kind begins with `keyword '`, that is, when it is
this prefix followed by some string. -/
theorem keyword_iff_description_prefix (k : TokenKind) (h : k < TOK_LIMIT) :
    TokenKindIsKeyword k = true ↔
      ∃ s : String, description k = some s ∧ ∃ t : String, s = "keyword '" ++ t := by
  rw [TOK_LIMIT_eq] at h
  have hk := keyword_descriptions k h
  rw [← tokenKindIsKeyword_eq] at hk
  have hlen : k < (FOR_EACH_TOKEN_KIND.map Prod.snd).length := by
    rw [List.length_map, FOR_EACH_TOKEN_KIND_length]
    exact h
  have hd : description k = some (FOR_EACH_TOKEN_KIND.map Prod.snd)[k] := by
    rw [description_eq_getElem?, List.getElem?_eq_getElem hlen]
  rw [List.getElem?_eq_getElem hlen, Option.getD_some] at hk
  rw [hk, hd, ← string_prefix_iff]
  constructor
  · intro ht
    exact ⟨_, rfl, ht⟩
  · rintro ⟨s, hs, ht⟩
    rw [← Option.some.inj hs] at ht
    exact ht

/-- Witness for claim C19 at `TOK_IN`, position 88. -/
theorem keyword_iff_description_prefix_witness :
    (88 : TokenKind) < TOK_LIMIT ∧
    (TokenKindIsKeyword 88 = true ↔
      ∃ s : String, description 88 = some s ∧ ∃ t : String, s = "keyword '" ++ t) :=
  ⟨by rw [TOK_LIMIT_eq]; decide, keyword_iff_description_prefix 88 (by rw [TOK_LIMIT_eq]; decide)⟩

/-- Claim C20. `TokenKindIsPossibleIdentifierName` holds exactly on `NAME`, on
every position from `TOK_TRUE` to `TOK_PUBLIC`, and on `INSTANCEOF`, `IN`,
`TYPEOF`, `VOID`. It is false on `NUMBER`, `STRING`, `SEMI`, `ADD`, `NOT`,
`ARROW` and `ASSIGN`. -/
theorem tokenKindIsPossibleIdentifierName_block :
    (∀ k : TokenKind, TokenKindIsPossibleIdentifierName k = true ↔
      (k = TOK_NAME ∨ (TOK_TRUE ≤ k ∧ k ≤ TOK_PUBLIC) ∨
        k ∈ [TOK_INSTANCEOF, TOK_IN, TOK_TYPEOF, TOK_VOID])) ∧
    TokenKindIsPossibleIdentifierName TOK_NUMBER = false ∧
    TokenKindIsPossibleIdentifierName TOK_STRING = false ∧
    TokenKindIsPossibleIdentifierName TOK_SEMI = false ∧
    TokenKindIsPossibleIdentifierName TOK_ADD = false ∧
    TokenKindIsPossibleIdentifierName TOK_NOT = false ∧
    TokenKindIsPossibleIdentifierName TOK_ARROW = false ∧
    TokenKindIsPossibleIdentifierName TOK_ASSIGN = false := by
  refine ⟨fun k => ?_, ?_, ?_, ?_, ?_, ?_, ?_, ?_⟩
  · simp [TokenKindIsPossibleIdentifierName, TokenKindIsPossibleIdentifier,
      TokenKindIsReservedWord, TokenKindIsKeyword, TokenKindIsFutureReservedWord,
      TokenKindIsReservedWordLiteral, TokenKindIsContextualKeyword,
      TokenKindIsStrictReservedWord]
    simp only [TokenKind] at k ⊢
    omega
  all_goals simp [TokenKindIsPossibleIdentifierName, TokenKindIsPossibleIdentifier,
    TokenKindIsReservedWord, TokenKindIsKeyword, TokenKindIsFutureReservedWord,
    TokenKindIsReservedWordLiteral, TokenKindIsContextualKeyword,
    TokenKindIsStrictReservedWord]

end js.frontend
